import Mathlib

/-!
Verification development for the Notepad2 lexers in this repository:
the Dart lexer (`src/scintilla/lexers/LexDart.cxx`, `ColouriseDartDoc`),
the Haxe lexer (`src/unnamed/part_001`, `ColouriseHaxeDoc`) and the
WinHex lexer (`src/unnamed/part_000`, `ColouriseWinHexDoc`).

The scanners are embedded shallowly: the document is a `List Char`,
characters are handled as natural-number character codes (`0` past either
end of the buffer, as in `StyleContext`), the per-character `while` loop
of each `Colourise…Doc` function becomes a fuel-indexed iteration of a
step function, and the style run committed by `StyleContext::SetState`
becomes an explicit list append.  Style constants are natural numbers;
`SciLexer.h` is not part of the source tree, so the numeric values below
are chosen to satisfy every relation the lexer code itself imposes
(the `static_assert`s pinning the string styles at
`DefaultNestedStateBaseStyle + 1 … + 4`, the `IsSpaceEquiv` ordering,
parity of `GetStringQuote`, contiguity used by `IsTripleString`, and the
`KeywordType` enumeration with `Return = 0x40`).
-/

namespace N2

/-! ### Character classes (CharacterSet.h)

CharacterSet.h is not under src/; the predicates below are the standard
Lexilla/Notepad2 character classes that the lexer code calls, modelled on
their documented meaning (ASCII classes, with the `Ex` variants treating
bytes `≥ 0x80` as identifier characters, cf. spec §7).
-/

def isEOLChar (c : Nat) : Bool := c == 13 || c == 10

def isspacechar (c : Nat) : Bool := c == 32 || (9 ≤ c && c ≤ 13)

def isSpaceOrTab (c : Nat) : Bool := c == 32 || c == 9

def isADigit (c : Nat) : Bool := 48 ≤ c && c ≤ 57

def isHexDigit (c : Nat) : Bool :=
  isADigit c || (97 ≤ c && c ≤ 102) || (65 ≤ c && c ≤ 70)

def isOctalDigit (c : Nat) : Bool := 48 ≤ c && c ≤ 55

/-- Haxe `EscapeSequence.atEscapeEnd` digit test: hex digits when `hex`,
octal digits otherwise. -/
def isOctalOrHex (c : Nat) (hex : Bool) : Bool :=
  if hex then isHexDigit c else isOctalDigit c

def isUpperCase (c : Nat) : Bool := 65 ≤ c && c ≤ 90

def isLowerCase (c : Nat) : Bool := 97 ≤ c && c ≤ 122

def isAlpha (c : Nat) : Bool := isUpperCase c || isLowerCase c

def isAlphaNumeric (c : Nat) : Bool := isADigit c || isAlpha c

def isIdentifierChar (c : Nat) : Bool := isAlphaNumeric c || c == 95

def isIdentifierStart (c : Nat) : Bool := isAlpha c || c == 95

def isIdentifierCharEx (c : Nat) : Bool := isIdentifierChar c || 128 ≤ c

def isIdentifierStartEx (c : Nat) : Bool := isIdentifierStart c || 128 ≤ c

def isAGraphic (c : Nat) : Bool := 32 < c && c < 127

/-- `IsNumberStart(ch, chNext)`: digit, or dot followed by a digit. -/
def isNumberStart (c cNext : Nat) : Bool :=
  isADigit c || (c == 46 && isADigit cNext)

/-- `IsNumberStartEx(chPrev, ch, chNext)`: as `IsNumberStart`, with the
previous character excluding a member-access dot. -/
def isNumberStartEx (cPrev c cNext : Nat) : Bool :=
  isADigit c || (c == 46 && cPrev != 46 && isADigit cNext)

/-- `IsNumberContinue(chPrev, ch, chNext)`: exponent sign after `e`/`E`,
or a dot not starting a `..` range. -/
def isNumberContinue (cPrev c cNext : Nat) : Bool :=
  ((c == 43 || c == 45) && (cPrev == 101 || cPrev == 69))
    || (c == 46 && cNext != 46)

/-- `IsDecimalNumber(chPrev, ch, chNext)`: span predicate of a number. -/
def isDecimalNumber (cPrev c cNext : Nat) : Bool :=
  isIdentifierChar c || isNumberContinue cPrev c cNext

/-- `IsDecimalNumberEx`: the Haxe lexer's number span predicate. -/
def isDecimalNumberEx (cPrev c cNext : Nat) : Bool :=
  isIdentifierCharEx c || isNumberContinue cPrev c cNext

/-- `IsJumpLabelPrevChar(chPrev)`: characters that may precede a jump
label (start of statement context). -/
def isJumpLabelPrevChar (cPrev : Nat) : Bool :=
  cPrev == 0 || cPrev == 59 || cPrev == 123 || cPrev == 125 || cPrev == 58

/-- `IsCommentTagPrev(chPrev)`: characters allowed right before a
doc-comment `@tag` in the Haxe lexer. -/
def isCommentTagPrev (cPrev : Nat) : Bool :=
  cPrev ≤ 32 || cPrev == 42 || cPrev == 47 || cPrev == 33

/-- `IsDeclarableOperator(ch)` of LexDart.cxx. -/
def isDeclarableOperator (c : Nat) : Bool :=
  c == 43 || c == 45 || c == 42 || c == 47 || c == 37 || c == 126
    || c == 38 || c == 124 || c == 94 || c == 60 || c == 62 || c == 61
    || c == 91 || c == 93

/-! ### Style constants

Dart styles.  `SciLexer.h` is absent from src/; values satisfy the
relations used by LexDart.cxx: comment styles and the task marker come
first (`IsSpaceEquiv state = state ≤ SCE_DART_TASKMARKER`), the eight
string styles are consecutive from `DefaultNestedStateBaseStyle + 1 = 11`
(the file's `static_assert`s) with `SQ` odd / `DQ` even as required by
`GetStringQuote`, and everything else is distinct and above the
space-equivalent range. -/

def SCE_DART_DEFAULT : Nat := 0
def SCE_DART_COMMENTLINE : Nat := 1
def SCE_DART_COMMENTLINEDOC : Nat := 2
def SCE_DART_COMMENTBLOCK : Nat := 3
def SCE_DART_COMMENTBLOCKDOC : Nat := 4
def SCE_DART_TASKMARKER : Nat := 5
def SCE_DART_STRING_SQ : Nat := 11
def SCE_DART_STRING_DQ : Nat := 12
def SCE_DART_TRIPLE_STRING_SQ : Nat := 13
def SCE_DART_TRIPLE_STRING_DQ : Nat := 14
def SCE_DART_RAWSTRING_SQ : Nat := 15
def SCE_DART_RAWSTRING_DQ : Nat := 16
def SCE_DART_TRIPLE_RAWSTRING_SQ : Nat := 17
def SCE_DART_TRIPLE_RAWSTRING_DQ : Nat := 18
def SCE_DART_ESCAPECHAR : Nat := 19
def SCE_DART_OPERATOR : Nat := 20
def SCE_DART_OPERATOR2 : Nat := 21
def SCE_DART_NUMBER : Nat := 22
def SCE_DART_IDENTIFIER : Nat := 23
def SCE_DART_VARIABLE : Nat := 24
def SCE_DART_VARIABLE2 : Nat := 25
def SCE_DART_METADATA : Nat := 26
def SCE_DART_SYMBOL_IDENTIFIER : Nat := 27
def SCE_DART_SYMBOL_OPERATOR : Nat := 28
def SCE_DART_WORD : Nat := 29
def SCE_DART_WORD2 : Nat := 30
def SCE_DART_CLASS : Nat := 31
def SCE_DART_ENUM : Nat := 32
def SCE_DART_FUNCTION : Nat := 33
def SCE_DART_FUNCTION_DEFINITION : Nat := 34
def SCE_DART_KEY : Nat := 35
def SCE_DART_LABEL : Nat := 36

/-- `KeywordType` of LexDart.cxx, as the underlying integer values:
`None = SCE_DART_DEFAULT`, `Class = SCE_DART_CLASS`,
`Enum = SCE_DART_ENUM`, `Label = SCE_DART_LABEL`, `Return = 0x40`. -/
def DartKw_None : Nat := 0
def DartKw_Class : Nat := SCE_DART_CLASS
def DartKw_Enum : Nat := SCE_DART_ENUM
def DartKw_Label : Nat := SCE_DART_LABEL
def DartKw_Return : Nat := 64

/-- Haxe styles, under the same constraints (`SCE_HAXE_STRINGSQ` is
`DefaultNestedStateBaseStyle + 1 = 11` per part_001's `static_assert`). -/
def SCE_HAXE_DEFAULT : Nat := 0
def SCE_HAXE_COMMENTLINE : Nat := 1
def SCE_HAXE_COMMENTBLOCK : Nat := 2
def SCE_HAXE_COMMENTBLOCKDOC : Nat := 3
def SCE_HAXE_COMMENTTAGAT : Nat := 4
def SCE_HAXE_TASKMARKER : Nat := 5
def SCE_HAXE_STRINGSQ : Nat := 11
def SCE_HAXE_STRINGDQ : Nat := 12
def SCE_HAXE_ESCAPECHAR : Nat := 13
def SCE_HAXE_OPERATOR : Nat := 14
def SCE_HAXE_OPERATOR2 : Nat := 15
def SCE_HAXE_NUMBER : Nat := 16
def SCE_HAXE_IDENTIFIER : Nat := 17
def SCE_HAXE_VARIABLE : Nat := 18
def SCE_HAXE_VARIABLE2 : Nat := 19
def SCE_HAXE_MATADATA : Nat := 20
def SCE_HAXE_PREPROCESSOR : Nat := 21
def SCE_HAXE_WORD : Nat := 22
def SCE_HAXE_CLASS : Nat := 23
def SCE_HAXE_INTERFACE : Nat := 24
def SCE_HAXE_ENUM : Nat := 25
def SCE_HAXE_CONSTANT : Nat := 26
def SCE_HAXE_FUNCTION : Nat := 27
def SCE_HAXE_FUNCTION_DEFINITION : Nat := 28
def SCE_HAXE_REGEX : Nat := 29

def HaxeKw_None : Nat := 0
def HaxeKw_Class : Nat := SCE_HAXE_CLASS
def HaxeKw_Interface : Nat := SCE_HAXE_INTERFACE
def HaxeKw_Enum : Nat := SCE_HAXE_ENUM
def HaxeKw_Function : Nat := SCE_HAXE_FUNCTION_DEFINITION

/-- WinHex styles (no ordering constraints are used by part_000). -/
def SCE_WINHEX_DEFAULT : Nat := 0
def SCE_WINHEX_COMMENTLINE : Nat := 1
def SCE_WINHEX_STRING : Nat := 2
def SCE_WINHEX_NUMBER : Nat := 3
def SCE_WINHEX_OPERATOR : Nat := 4
def SCE_WINHEX_IDENTIFIER : Nat := 5
def SCE_WINHEX_KEYWORD : Nat := 6
def SCE_WINHEX_TYPE : Nat := 7
def SCE_WINHEX_COMMAND : Nat := 8

def SC_FOLDLEVELBASE : Nat := 0x400
def SC_FOLDLEVELHEADERFLAG : Nat := 0x2000

/-- `IsSpaceEquiv` (identical form in LexDart.cxx and part_001 up to the
grammar's task-marker constant, which is 5 in both numberings here). -/
def isSpaceEquiv (state : Nat) : Bool := state ≤ SCE_DART_TASKMARKER

/-- `IsTripleString` of LexDart.cxx. -/
def isTripleString (state : Nat) : Bool :=
  ((state - SCE_DART_STRING_SQ) % 4) > 1

/-- `GetStringQuote` of LexDart.cxx (`SCE_DART_STRING_SQ` is odd, so an
odd string style uses the single quote). -/
def getStringQuote (state : Nat) : Nat := if state % 2 == 1 then 39 else 34

/-! ### Document access

The scanner reads the buffer through `StyleContext`; a position outside
the buffer reads as character code 0. -/

def chAt (doc : List Char) (i : Nat) : Nat := ((doc.getD i (Char.ofNat 0))).toNat

/-- True at the last position of a line: at the line's end-of-line
character (the `\n` of a `\r\n` pair, a lone `\r`, or a `\n`), or at the
final position of the scan range. -/
def atLineEndPos (doc : List Char) (endPos p : Nat) : Bool :=
  p + 1 == endPos || chAt doc p == 10 || (chAt doc p == 13 && chAt doc (p + 1) != 10)

/-- True at the first position of a line. -/
def atLineStartPos (doc : List Char) (p : Nat) : Bool :=
  p == 0 || chAt doc (p - 1) == 10
    || (chAt doc (p - 1) == 13 && chAt doc p != 10)

/-- Line number of a position: the number of line endings strictly
before it (`\r\n` counted once). -/
def lineOfPos (doc : List Char) (p : Nat) : Nat :=
  (List.range p).countP (fun q =>
    chAt doc q == 10 || (chAt doc q == 13 && chAt doc (q + 1) != 10))

/-- Per-line integer records written by `styler.SetLineState` /
`styler.SetLevel`, looked up by line number with default 0. -/
def lookupLine (ls : List (Nat × Nat)) (n : Nat) : Nat :=
  ((ls.find? (fun e => e.1 == n)).map (fun e => e.2)).getD 0

/-! ### Scanner state

One state record serves all three scanners (each uses the fields its C++
function declares).  `styles` is the list of styles already committed for
positions `[startPos, startSeg)`; `startSeg` is `StyleContext`'s start of
the current segment; committing clamps at `endPos` exactly as
`LexAccessor` clamps `ColourTo` to the styled range. -/

structure St where
  pos : Nat := 0
  state : Nat := 0
  startSeg : Nat := 0
  styles : List Nat := []
  lineStates : List (Nat × Nat) := []
  lineStateLineType : Nat := 0
  commentLevel : Nat := 0
  kwType : Nat := 0
  chBeforeIdentifier : Nat := 0
  nestedState : List Nat := []
  visibleChars : Nat := 0
  chBefore : Nat := 0
  visibleCharsBefore : Nat := 0
  chPrevNonWhite : Nat := 0
  simpleStringInterpolation : Bool := false
  escOuterState : Nat := 0
  escDigitsLeft : Nat := 0
  escHex : Bool := false
  escBrace : Bool := false
  insideRegexRange : Bool := false
  levelCurrent : Nat := SC_FOLDLEVELBASE
  levelNext : Nat := SC_FOLDLEVELBASE
  levels : List (Nat × Nat) := []
  deriving Repr, DecidableEq

/-- `StyleContext::SetState`: commit the current run `[startSeg, pos)`
(clamped to the styled range) with the current style, then switch. -/
def setState (endPos newState : Nat) (st : St) : St :=
  { st with
    styles := st.styles ++ List.replicate (min st.pos endPos - st.startSeg) st.state
    startSeg := st.pos
    state := newState }

/-- `StyleContext::ChangeState`: restyle the pending run. -/
def changeState (newState : Nat) (st : St) : St := { st with state := newState }

/-- `StyleContext::Forward`. -/
def forward (st : St) : St := { st with pos := st.pos + 1 }

/-- `StyleContext::Forward(n)` / `Advance(n)`. -/
def advance (n : Nat) (st : St) : St := { st with pos := st.pos + n }

/-- `StyleContext::Complete`: commit the final run up to `endPos`. -/
def complete (endPos : Nat) (st : St) : St :=
  { st with
    styles := st.styles ++ List.replicate (endPos - st.startSeg) st.state
    startSeg := endPos }

/-- `sc.Match(a, b)`. -/
def scMatch (doc : List Char) (p a b : Nat) : Bool :=
  chAt doc p == a && chAt doc (p + 1) == b

/-- `sc.MatchNext(a, b)`: the two characters after the current one. -/
def scMatchNext (doc : List Char) (p a b : Nat) : Bool :=
  chAt doc (p + 1) == a && chAt doc (p + 2) == b

/-- `sc.MatchNext()`: the two characters after the current one repeat it
(used for closing triple quotes). -/
def scMatchNextSame (doc : List Char) (p : Nat) : Bool :=
  chAt doc (p + 1) == chAt doc p && chAt doc (p + 2) == chAt doc p

/-- `sc.GetLineNextChar()`: first non-space/tab character from the
current position to the end of the line, 0 if none. -/
def getLineNextChar (doc : List Char) (endPos : Nat) : Nat → Nat → Nat
  | 0, _ => 0
  | fuel + 1, p =>
    if p ≥ endPos then 0
    else
      let c := chAt doc p
      if isEOLChar c then 0
      else if !isSpaceOrTab c then c
      else getLineNextChar doc endPos fuel (p + 1)

/-- `sc.GetDocNextChar(ignoreCurrent)`: first non-whitespace character at
or after the current position (spec §4.3's next-significant-character
probe), 0 at the end of the document. -/
def getDocNextChar (doc : List Char) : Nat → Nat → Nat
  | 0, _ => 0
  | fuel + 1, p =>
    if p ≥ doc.length then 0
    else
      let c := chAt doc p
      if !isspacechar c then c
      else getDocNextChar doc fuel (p + 1)

/-- `GetCurrent`-style lexeme of the pending run, truncated to the
127 characters that fit the lexer's `char s[128]` buffer. -/
def currentLexeme (doc : List Char) (st : St) : String :=
  String.mk (((doc.drop st.startSeg).take (st.pos - st.startSeg)).take 127)

/-- `GetCurrentLowered`-style lexeme (WinHex uses `char s[64]`). -/
def currentLexemeLowered (doc : List Char) (st : St) : String :=
  String.mk ((((doc.drop st.startSeg).take (st.pos - st.startSeg)).take 63).map Char.toLower)

/-- `sc.LengthCurrent()`. -/
def lengthCurrent (st : St) : Nat := st.pos - st.startSeg

/-- Modelled from the spec: `LookbackNonWhite` (LexerUtils.h is not under
src/).  Spec §4.3 describes a lookback that skips whitespace and
space-equivalent (comment) styles; walk back from `startPos - 1` to the
nearest position styled above the task-marker range and take its
character. -/
def lookbackNonWhite (doc : List Char) (prevStyles : List Nat) : Nat → Nat → Nat
  | 0, _ => 0
  | fuel + 1, p =>
    if prevStyles.getD p 0 > SCE_DART_TASKMARKER then chAt doc p
    else if p == 0 then 0
    else lookbackNonWhite doc prevStyles fuel (p - 1)

/-! ### Line-state packing

Modelled from the spec: `PackLineState` / `UnpackLineState` and
`DefaultNestedStateBaseStyle` live in LexerUtils.h, which is not under
src/.  Per spec §4.1 the packed form is "a variable-length packed stack
of nested-scope markers with a leading count", and the layout comment in
ColouriseDartDoc gives 3 bits of count followed by four 3-bit entries.
An entry stores `state - DefaultNestedStateBaseStyle` (= `state - 10`,
by the `static_assert`s), with the default state stored as 0. -/

def packNestedEntry (s : Nat) : Nat := if s ≤ 10 then 0 else (s - 10) % 8

def unpackNestedEntry (v : Nat) : Nat := if v == 0 then 0 else v + 10

def packEntries : List Nat → Nat
  | [] => 0
  | s :: rest => packNestedEntry s ||| (packEntries rest <<< 3)

def unpackEntries : Nat → Nat → List Nat
  | 0, _ => []
  | n + 1, x => unpackNestedEntry (x % 8) :: unpackEntries n (x / 8)

/-- Modelled from the spec: leading 3-bit count, then up to four 3-bit
nested-state entries. -/
def packLineState (ns : List Nat) : Nat :=
  min ns.length 4 ||| (packEntries (ns.take 4) <<< 3)

/-- Modelled from the spec: total over every raw integer. -/
def unpackLineState (x : Nat) : List Nat :=
  unpackEntries (min (x % 8) 4) (x / 8)

/-- Modelled from the spec: `TakeAndPop` returns the top of the
nested-state stack (the most recently pushed entry) and removes it. -/
def takeAndPop (ns : List Nat) : Nat × List Nat :=
  (ns.getLastD 0, ns.dropLast)

/-- The Dart line-state encoder (LexDart.cxx lines 431-435): two low bits
of line type, six bits of comment level, and the packed nested-state
stack above bit 8 (only when the stack is non-empty). -/
def dartEncodeLineState (commentLevel lineStateLineType : Nat) (nestedState : List Nat) : Nat :=
  let lineState := (commentLevel <<< 2) ||| lineStateLineType
  if nestedState != [] then lineState ||| (packLineState nestedState <<< 8) else lineState

/-- The Dart line-state decoder (LexDart.cxx lines 117-130): comment
level from bits 2-7. -/
def dartDecodeCommentLevel (lineState : Nat) : Nat := (lineState >>> 2) &&& 0x3f

/-- The Dart line-state decoder (LexDart.cxx lines 117-130): nested
interpolation stack from the bits above bit 8 (empty when they are 0). -/
def dartDecodeNested (lineState : Nat) : List Nat :=
  let rest := lineState >>> 8
  if rest != 0 then unpackLineState rest else []

end N2

namespace N2

/-- Previous character as `StyleContext` sees it (0 at position 0). -/
def chPrevAt (doc : List Char) (p : Nat) : Nat :=
  if p == 0 then 0 else chAt doc (p - 1)

/-! ### Task markers

Modelled from the spec: `HighlightTaskMarker` lives in LexerUtils.cxx,
which is not under src/.  The spec's data model lists a "task-marker"
style for marker words inside comments; we highlight a whole marker word
(`TODO`, `FIXME`, `HACK`, `XXX`, `NOTE`) starting at the current
position, then resume the surrounding comment style. -/

def taskMarkerWords : List (List Char) :=
  [("TODO").toList, ("FIXME").toList, ("HACK").toList, ("XXX").toList, ("NOTE").toList]

def matchesWordAt (doc : List Char) (p : Nat) (w : List Char) : Bool :=
  (List.range w.length).all (fun i => chAt doc (p + i) == (w.getD i (Char.ofNat 0)).toNat)

def taskMarkerLenAt (doc : List Char) (p : Nat) : Option Nat :=
  if p != 0 && isIdentifierChar (chPrevAt doc p) then none
  else
    match taskMarkerWords.find? (fun w =>
        matchesWordAt doc p w && !isIdentifierChar (chAt doc (p + w.length))) with
    | some w => some w.length
    | none => none

def highlightTaskMarker (endPos markerStyle : Nat) (doc : List Char) (st : St) : St × Bool :=
  match taskMarkerLenAt doc st.pos with
  | some k =>
    let old := st.state
    (setState endPos old (advance k (setState endPos markerStyle st)), true)
  | none => (st, false)

/-! ### The Dart lexer (`ColouriseDartDoc`, LexDart.cxx lines 100-446) -/

def DartLineStateMaskLineComment : Nat := 1
def DartLineStateMaskImport : Nat := 2

/-- Scan context: the document, the styled range, the four keyword lists
(`KeywordIndex_Keyword/Type/Class/Enumeration`), and the host-persisted
styles and line states of positions before `startPos` (used on resume). -/
structure DartCtx where
  doc : List Char
  startPos : Nat
  endPos : Nat
  kwKeyword : List String := []
  kwTypes : List String := []
  kwClasses : List String := []
  kwEnums : List String := []
  prevStyles : List Nat := []
  prevLineStates : List (Nat × Nat) := []

/-- `EscapeSequence::resetEscapeState` of LexDart.cxx: no escape on an
end-of-line character; otherwise 3 digits after `x`, 5 after `u`, else 1. -/
def dartResetEscapeState (state chNext : Nat) (st : St) : St × Bool :=
  if isEOLChar chNext then (st, false)
  else
    ({ st with
        escOuterState := state
        escBrace := false
        escDigitsLeft := if chNext == 120 then 3 else if chNext == 117 then 5 else 1 },
      true)

/-- `EscapeSequence::atEscapeEnd` of LexDart.cxx: decrement, then end when
the counter is exhausted or the character is not a hex digit. -/
def dartAtEscapeEnd (ch : Nat) (st : St) : St × Bool :=
  let d := st.escDigitsLeft - 1
  ({ st with escDigitsLeft := d }, d == 0 || !isHexDigit ch)

/-- Identifier classification chain of `ColouriseDartDoc`
(LexDart.cxx lines 176-242) as a pure function: given the lexeme, the
character that closed it, whether the lexeme spans all visible characters
of the line, the context characters, the pending keyword type, the two
lookahead probes and the incoming line-type/style, it returns the
reclassified style, the updated keyword type and the updated line type.
The branches follow the source's `if`/`else if` chain exactly. -/
def dartClassifyCore (c : DartCtx) (s : String) (ch : Nat) (importPos : Bool)
    (chBefore chBeforeIdentifier kwType0 chLineNext chDocNext lineType0 : Nat) :
    Nat × Nat × Nat :=
  if c.kwKeyword.contains s then
    let lineType :=
      if s == "import" || s == "part" then
        if importPos then DartLineStateMaskImport else lineType0
      else lineType0
    let kw :=
      if s == "import" || s == "part" then kwType0
      else if s == "class" || s == "extends" || s == "implements" || s == "new"
          || s == "throw" || s == "with" || s == "as" || s == "is" || s == "on" then
        DartKw_Class
      else if s == "enum" then DartKw_Enum
      else if s == "break" || s == "continue" then DartKw_Label
      else if s == "return" || s == "await" || s == "yield" then DartKw_Return
      else kwType0
    let kw :=
      if DartKw_None < kw && kw < DartKw_Return then
        if !isIdentifierStartEx chLineNext then DartKw_None else kw
      else kw
    (SCE_DART_WORD, kw, lineType)
  else
    let style :=
      if c.kwTypes.contains s then SCE_DART_WORD2
      else if c.kwClasses.contains s then SCE_DART_CLASS
      else if c.kwEnums.contains s then SCE_DART_ENUM
      else if ch == 58 then
        if chBefore == 44 || chBefore == 123 then SCE_DART_KEY
        else if isJumpLabelPrevChar chBefore then SCE_DART_LABEL
        else SCE_DART_IDENTIFIER
      else if ch != 46 then
        if DartKw_None < kwType0 && kwType0 < DartKw_Return then kwType0
        else if chDocNext == 40 then
          if kwType0 != DartKw_Return && (isIdentifierCharEx chBefore || chBefore == 93) then
            SCE_DART_FUNCTION_DEFINITION
          else SCE_DART_FUNCTION
        else if (chBeforeIdentifier == 60 && (chDocNext == 62 || chDocNext == 60))
            || isIdentifierStartEx chDocNext then
          SCE_DART_CLASS
        else SCE_DART_IDENTIFIER
      else SCE_DART_IDENTIFIER
    (style, if ch != 46 then DartKw_None else kwType0, lineType0)

/-- Application of `dartClassifyCore` to the scan state when an
identifier lexeme closes (including the final `kwType` reset of
LexDart.cxx lines 239-241, folded into the core's last component). -/
def dartClassifyIdentifier (c : DartCtx) (st : St) : St :=
  let ch := chAt c.doc st.pos
  let r := dartClassifyCore c (currentLexeme c.doc st) ch
    (st.visibleChars == lengthCurrent st) st.chBefore st.chBeforeIdentifier st.kwType
    (getLineNextChar c.doc c.endPos (c.doc.length + 1) st.pos)
    (getDocNextChar c.doc (c.doc.length + 1) (if ch == 63 then st.pos + 1 else st.pos))
    st.lineStateLineType
  { st with state := r.1, kwType := r.2.1, lineStateLineType := r.2.2 }

/-- Identifier-family case of the Dart state switch (LexDart.cxx lines
155-247): `SCE_DART_IDENTIFIER`, `VARIABLE`, `VARIABLE2`, `METADATA`,
`SYMBOL_IDENTIFIER`. -/
def dartSwitchIdentifierFamily (c : DartCtx) (st : St) : St × Bool :=
  let ch := chAt c.doc st.pos
  if isIdentifierCharEx ch then (st, false)
  else if st.state == SCE_DART_VARIABLE2 then
    (setState c.endPos st.escOuterState st, true)
  else if (st.state == SCE_DART_METADATA || st.state == SCE_DART_SYMBOL_IDENTIFIER)
      && ch == 46 then
    let old := st.state
    (setState c.endPos old (forward (setState c.endPos SCE_DART_OPERATOR st)), true)
  else
    let st := if st.state == SCE_DART_IDENTIFIER then dartClassifyIdentifier c st else st
    (setState c.endPos SCE_DART_DEFAULT st, false)

/-- Block-comment case of the Dart state switch (LexDart.cxx lines
264-278): the nesting counter is decremented on `*/`, incremented on
`/*`, and the comment closes only when the counter reaches zero. -/
def dartSwitchComment (c : DartCtx) (st : St) : St × Bool :=
  if scMatch c.doc st.pos 42 47 then
    let st := forward st
    let st := { st with commentLevel := st.commentLevel - 1 }
    if st.commentLevel == 0 then (setState c.endPos SCE_DART_DEFAULT (forward st), false)
    else (st, false)
  else if scMatch c.doc st.pos 47 42 then
    ({ forward st with commentLevel := st.commentLevel + 1 }, false)
  else highlightTaskMarker c.endPos SCE_DART_TASKMARKER c.doc st

/-- String-family case of the Dart state switch (LexDart.cxx lines
280-327): non-triple strings die at a line start; escapes and the two
interpolation forms are recognised outside raw strings; a matching
unescaped quote (triple for triple strings) closes the literal. -/
def dartSwitchString (c : DartCtx) (st : St) : St × Bool :=
  let doc := c.doc
  let ch := chAt doc st.pos
  let chNext := chAt doc (st.pos + 1)
  if atLineStartPos doc st.pos && !isTripleString st.state then
    (setState c.endPos SCE_DART_DEFAULT st, false)
  else if ch == 92 && st.state < SCE_DART_RAWSTRING_SQ then
    let r := dartResetEscapeState st.state chNext st
    if r.2 then
      let st2 := forward (setState c.endPos SCE_DART_ESCAPECHAR r.1)
      if scMatch doc st2.pos 117 123 then
        (forward { st2 with escBrace := true, escDigitsLeft := 7 }, false)
      else (st2, false)
    else (r.1, false)
  else if ch == 36 && st.state < SCE_DART_RAWSTRING_SQ then
    if chNext == 123 || chNext == 40 then
      let st1 :=
        if chNext == 40 then
          { st with simpleStringInterpolation := true, escOuterState := st.state }
        else { st with nestedState := st.nestedState ++ [st.state] }
      (forward (setState c.endPos SCE_DART_OPERATOR2 st1), false)
    else if isIdentifierStartEx chNext then
      (setState c.endPos SCE_DART_VARIABLE2 { st with escOuterState := st.state }, false)
    else (st, false)
  else if ch == getStringQuote st.state
      && (!isTripleString st.state || scMatchNextSame doc st.pos) then
    let st1 := if isTripleString st.state then advance 2 st else st
    let st2 := forward st1
    let st3 :=
      if st2.state ≤ SCE_DART_STRING_DQ && (st2.chBefore == 44 || st2.chBefore == 123) then
        if getLineNextChar doc c.endPos (doc.length + 1) st2.pos == 58 then
          changeState SCE_DART_KEY st2
        else st2
      else st2
    (setState c.endPos SCE_DART_DEFAULT st3, false)
  else (st, false)

/-- Escape case of the Dart state switch (LexDart.cxx lines 329-337):
on escape end, a brace form additionally consumes the closing brace,
then the saved outer style resumes at the same position. -/
def dartSwitchEscape (c : DartCtx) (st : St) : St × Bool :=
  let ch := chAt c.doc st.pos
  let r := dartAtEscapeEnd ch st
  if r.2 then
    let st2 := if r.1.escBrace && ch == 125 then forward r.1 else r.1
    (setState c.endPos r.1.escOuterState st2, true)
  else (r.1, false)

/-- The `switch (sc.state)` of `ColouriseDartDoc`.  The returned flag is
the loop's `continue` (skip the default-state openers and the
end-of-iteration bookkeeping). -/
def dartSwitch (c : DartCtx) (st : St) : St × Bool :=
  let doc := c.doc
  let ch := chAt doc st.pos
  let chNext := chAt doc (st.pos + 1)
  let chPrev := chPrevAt doc st.pos
  if st.state == SCE_DART_OPERATOR || st.state == SCE_DART_OPERATOR2 then
    (setState c.endPos SCE_DART_DEFAULT st, false)
  else if st.state == SCE_DART_NUMBER then
    (if !isDecimalNumber chPrev ch chNext then setState c.endPos SCE_DART_DEFAULT st else st,
      false)
  else if st.state == SCE_DART_IDENTIFIER || st.state == SCE_DART_VARIABLE
      || st.state == SCE_DART_VARIABLE2 || st.state == SCE_DART_METADATA
      || st.state == SCE_DART_SYMBOL_IDENTIFIER then
    dartSwitchIdentifierFamily c st
  else if st.state == SCE_DART_SYMBOL_OPERATOR then
    (if !isDeclarableOperator ch then setState c.endPos SCE_DART_DEFAULT st else st, false)
  else if st.state == SCE_DART_COMMENTLINE || st.state == SCE_DART_COMMENTLINEDOC then
    if atLineStartPos doc st.pos then (setState c.endPos SCE_DART_DEFAULT st, false)
    else ((highlightTaskMarker c.endPos SCE_DART_TASKMARKER doc st).1, false)
  else if st.state == SCE_DART_COMMENTBLOCK || st.state == SCE_DART_COMMENTBLOCKDOC then
    dartSwitchComment c st
  else if st.state == SCE_DART_STRING_SQ || st.state == SCE_DART_STRING_DQ
      || st.state == SCE_DART_TRIPLE_STRING_SQ || st.state == SCE_DART_TRIPLE_STRING_DQ
      || st.state == SCE_DART_RAWSTRING_SQ || st.state == SCE_DART_RAWSTRING_DQ
      || st.state == SCE_DART_TRIPLE_RAWSTRING_SQ
      || st.state == SCE_DART_TRIPLE_RAWSTRING_DQ then
    dartSwitchString c st
  else if st.state == SCE_DART_ESCAPECHAR then
    dartSwitchEscape c st
  else (st, false)

/-- Comment opener of `ColouriseDartDoc` (lines 341-357): `//` or `/*`,
with the doc-comment marker checked once right after the two-character
opener. -/
def dartOpenComment (c : DartCtx) (st : St) : St × Bool :=
  let doc := c.doc
  let chNext := chAt doc (st.pos + 1)
  let st := { st with visibleCharsBefore := st.visibleChars }
  let st := setState c.endPos
    (if chNext == 47 then SCE_DART_COMMENTLINE else SCE_DART_COMMENTBLOCK) st
  let st := advance 2 st
  let st :=
    if chAt doc st.pos == chNext && chAt doc (st.pos + 1) != chNext then
      changeState (if chNext == 47 then SCE_DART_COMMENTLINEDOC else SCE_DART_COMMENTBLOCKDOC) st
    else st
  let st :=
    if chNext == 47 then
      if st.visibleChars == 0 then
        { st with lineStateLineType := DartLineStateMaskLineComment }
      else st
    else { st with commentLevel := 1 }
  (st, true)

/-- Raw-string opener of `ColouriseDartDoc` (lines 358-369). -/
def dartOpenRawString (c : DartCtx) (st : St) : St × Bool :=
  let doc := c.doc
  let chNext := chAt doc (st.pos + 1)
  let st := setState c.endPos
    (if chNext == 39 then SCE_DART_RAWSTRING_SQ else SCE_DART_RAWSTRING_DQ) st
  let st := advance 2 st
  let chPrev := chPrevAt doc st.pos
  let st :=
    if chPrev == 39 && scMatch doc st.pos 39 39 then
      advance 2 (changeState SCE_DART_TRIPLE_RAWSTRING_SQ st)
    else if chPrev == 34 && scMatch doc st.pos 34 34 then
      advance 2 (changeState SCE_DART_TRIPLE_RAWSTRING_DQ st)
    else st
  (st, true)

/-- Operator opener of `ColouriseDartDoc` (lines 402-422): generic
graphic characters, the close of a `$(`-interpolation, and the
nested-state brace tracking of a `${}`-interpolation. -/
def dartOpenGraphic (c : DartCtx) (st : St) : St × Bool :=
  let ch := chAt c.doc st.pos
  let st := setState c.endPos SCE_DART_OPERATOR st
  if st.simpleStringInterpolation && ch == 41 then
    let st := changeState SCE_DART_OPERATOR2 { st with simpleStringInterpolation := false }
    (setState c.endPos st.escOuterState (forward st), true)
  else if st.nestedState != [] then
    if ch == 123 then ({ st with nestedState := st.nestedState ++ [SCE_DART_DEFAULT] }, false)
    else if ch == 125 then
      let popped := takeAndPop st.nestedState
      let st := { st with nestedState := popped.2 }
      let st := if popped.1 != SCE_DART_DEFAULT then changeState SCE_DART_OPERATOR2 st else st
      (setState c.endPos popped.1 (forward st), true)
    else (st, false)
  else (st, false)

/-- The `if (sc.state == SCE_DART_DEFAULT)` opener block of
`ColouriseDartDoc` (lines 340-423). -/
def dartOpener (c : DartCtx) (st : St) : St × Bool :=
  let doc := c.doc
  let ch := chAt doc st.pos
  let chNext := chAt doc (st.pos + 1)
  if ch == 47 && (chNext == 47 || chNext == 42) then
    dartOpenComment c st
  else if ch == 114 && (chNext == 39 || chNext == 34) then
    dartOpenRawString c st
  else if ch == 34 then
    if scMatchNext doc st.pos 34 34 then
      (advance 2 (setState c.endPos SCE_DART_TRIPLE_STRING_DQ st), false)
    else (setState c.endPos SCE_DART_STRING_DQ { st with chBefore := st.chPrevNonWhite }, false)
  else if ch == 39 then
    if scMatchNext doc st.pos 39 39 then
      (advance 2 (setState c.endPos SCE_DART_TRIPLE_STRING_SQ st), false)
    else (setState c.endPos SCE_DART_STRING_SQ { st with chBefore := st.chPrevNonWhite }, false)
  else if isNumberStart ch chNext then (setState c.endPos SCE_DART_NUMBER st, false)
  else if (ch == 64 || ch == 36) && isIdentifierStartEx chNext then
    (setState c.endPos (if ch == 64 then SCE_DART_METADATA else SCE_DART_VARIABLE) st, false)
  else if ch == 35 then
    if isIdentifierStartEx chNext then (setState c.endPos SCE_DART_SYMBOL_IDENTIFIER st, false)
    else if isDeclarableOperator chNext then
      (setState c.endPos SCE_DART_SYMBOL_OPERATOR st, false)
    else (st, false)
  else if isIdentifierStartEx ch then
    let st := { st with chBefore := st.chPrevNonWhite }
    let st :=
      if st.chPrevNonWhite != 46 then { st with chBeforeIdentifier := st.chPrevNonWhite } else st
    (setState c.endPos SCE_DART_IDENTIFIER st, false)
  else if isAGraphic ch then
    dartOpenGraphic c st
  else (st, false)

/-- End-of-iteration bookkeeping of `ColouriseDartDoc` (lines 425-442):
visible-character tracking, the at-line-end line-state write with its
resets, and the final `sc.Forward()`. -/
def dartLineEndUpdate (c : DartCtx) (st : St) : St :=
  let lineState := dartEncodeLineState st.commentLevel st.lineStateLineType st.nestedState
  { st with
    lineStates := st.lineStates ++ [(lineOfPos c.doc st.pos, lineState)]
    lineStateLineType := 0
    visibleChars := 0
    visibleCharsBefore := 0
    kwType := DartKw_None }

def dartBottom (c : DartCtx) (st : St) : St :=
  let ch := chAt c.doc st.pos
  let st :=
    if !isspacechar ch then
      let st := { st with visibleChars := st.visibleChars + 1 }
      if !isSpaceEquiv st.state then { st with chPrevNonWhite := ch } else st
    else st
  let st := if atLineEndPos c.doc c.endPos st.pos then dartLineEndUpdate c st else st
  forward st

/-- One iteration of the `while (sc.More())` loop of `ColouriseDartDoc`. -/
def dartIter (c : DartCtx) (st : St) : St :=
  let s1 := dartSwitch c st
  if s1.2 then s1.1
  else
    let s2 := if s1.1.state == SCE_DART_DEFAULT then dartOpener c s1.1 else (s1.1, false)
    if s2.2 then s2.1 else dartBottom c s2.1

def dartRun (c : DartCtx) : Nat → St → St
  | 0, st => st
  | fuel + 1, st => if st.pos < c.endPos then dartRun c fuel (dartIter c st) else st

/-- `ColouriseDartDoc`: initial line-state decode (lines 116-140), the
scan loop, and `sc.Complete()`. -/
def dartScan (c : DartCtx) (initStyle : Nat) : St :=
  let doc := c.doc
  let line0 := lineOfPos doc c.startPos
  let st0 : St := { pos := c.startPos, state := initStyle, startSeg := c.startPos }
  let st0 :=
    if line0 > 0 then
      let ls := lookupLine c.prevLineStates (line0 - 1)
      { st0 with
        commentLevel := dartDecodeCommentLevel ls
        nestedState := dartDecodeNested ls }
    else st0
  let st0 :=
    if c.startPos == 0 then
      if scMatch doc 0 35 33 then
        { forward (setState c.endPos SCE_DART_COMMENTLINE st0) with
            lineStateLineType := DartLineStateMaskLineComment }
      else st0
    else if isSpaceEquiv initStyle then
      { st0 with
          chPrevNonWhite := lookbackNonWhite doc c.prevStyles (c.startPos + 1) (c.startPos - 1) }
    else st0
  complete c.endPos (dartRun c (2 * c.endPos + 8) st0)

def dartCtxFull (kwKeyword kwTypes kwClasses kwEnums : List String) (doc : List Char) : DartCtx :=
  { doc := doc, startPos := 0, endPos := doc.length,
    kwKeyword := kwKeyword, kwTypes := kwTypes, kwClasses := kwClasses, kwEnums := kwEnums }

/-- Styles of a whole-document scan from a default start. -/
def dartStyles (kwKeyword kwTypes kwClasses kwEnums : List String) (doc : List Char) : List Nat :=
  (dartScan (dartCtxFull kwKeyword kwTypes kwClasses kwEnums doc) SCE_DART_DEFAULT).styles

end N2

namespace N2

/-! ### The Haxe lexer (`ColouriseHaxeDoc`, part_001 lines 93-369) -/

def HaxeLineStateMaskLineComment : Nat := 1
def HaxeLineStateMaskImport : Nat := 2

structure HaxeCtx where
  doc : List Char
  startPos : Nat
  endPos : Nat
  kwKeyword : List String := []
  kwPreproc : List String := []
  kwClasses : List String := []
  kwInterfaces : List String := []
  kwEnums : List String := []
  kwConstants : List String := []
  prevLineStates : List (Nat × Nat) := []

/-- `EscapeSequence::resetEscapeState` of part_001: no escape on an
end-of-line character; 5 digits after `u`, 3 after `x`, 3 octal digits
after an octal digit (with `hex` cleared), else 1. -/
def haxeResetEscapeState (state chNext : Nat) (st : St) : St × Bool :=
  if isEOLChar chNext then (st, false)
  else
    let st := { st with escOuterState := state, escDigitsLeft := 1, escHex := true,
                        escBrace := false }
    let st :=
      if chNext == 117 then { st with escDigitsLeft := 5 }
      else if chNext == 120 then { st with escDigitsLeft := 3 }
      else if isOctalDigit chNext then { st with escDigitsLeft := 3, escHex := false }
      else st
    (st, true)

/-- `EscapeSequence::atEscapeEnd` of part_001. -/
def haxeAtEscapeEnd (ch : Nat) (st : St) : St × Bool :=
  let d := st.escDigitsLeft - 1
  ({ st with escDigitsLeft := d }, d == 0 || !isOctalOrHex ch st.escHex)

/-- Regex-flag loop `while (IsLowerCase(sc.ch)) sc.Forward();`. -/
def skipLowerCase (doc : List Char) : Nat → St → St
  | 0, st => st
  | fuel + 1, st =>
    if isLowerCase (chAt doc st.pos) then skipLowerCase doc fuel (forward st) else st

/-- Identifier classification chain of `ColouriseHaxeDoc`
(part_001 lines 151-209) as a pure function, in the same shape as
`dartClassifyCore` (the final `kwType` reset of lines 206-208 is folded
into the last component). -/
def haxeClassifyCore (c : HaxeCtx) (s : String) (ch : Nat) (importPos : Bool)
    (chBeforeIdentifier kwType0 chDocNext : Nat) (matchBracket : Bool)
    (lineType0 : Nat) : Nat × Nat × Nat :=
  if s.take 1 == "#" then
    let style :=
      if c.kwPreproc.contains (s.drop 1) then SCE_HAXE_PREPROCESSOR else SCE_HAXE_IDENTIFIER
    (style, if ch != 46 then HaxeKw_None else kwType0, lineType0)
  else if c.kwKeyword.contains s then
    let lineType :=
      if s == "import" then
        if importPos then HaxeLineStateMaskImport else lineType0
      else lineType0
    let kw :=
      if s == "import" then kwType0
      else if s == "class" || s == "new" || s == "extends" || s == "abstract"
          || s == "typedef" then
        if kwType0 != HaxeKw_Enum then HaxeKw_Class else kwType0
      else if s == "interface" || s == "implements" then HaxeKw_Interface
      else if s == "enum" then HaxeKw_Enum
      else if s == "function" then HaxeKw_Function
      else kwType0
    let kw :=
      if kw != HaxeKw_None then
        if !isIdentifierStartEx chDocNext then HaxeKw_None else kw
      else kw
    (SCE_HAXE_WORD, kw, lineType)
  else
    let style :=
      if c.kwClasses.contains s then SCE_HAXE_CLASS
      else if c.kwInterfaces.contains s then SCE_HAXE_INTERFACE
      else if c.kwEnums.contains s then SCE_HAXE_ENUM
      else if c.kwConstants.contains s then SCE_HAXE_CONSTANT
      else if ch != 46 then
        if kwType0 != HaxeKw_None then kwType0
        else if chDocNext == 40 then SCE_HAXE_FUNCTION
        else if matchBracket
            || (chBeforeIdentifier == 60 && (chDocNext == 62 || chDocNext == 60)) then
          SCE_HAXE_CLASS
        else SCE_HAXE_IDENTIFIER
      else SCE_HAXE_IDENTIFIER
    (style, if ch != 46 then HaxeKw_None else kwType0, lineType0)

/-- Application of `haxeClassifyCore` to the scan state when an
identifier lexeme closes. -/
def haxeClassifyIdentifier (c : HaxeCtx) (st : St) : St :=
  let ch := chAt c.doc st.pos
  let r := haxeClassifyCore c (currentLexeme c.doc st) ch
    (st.visibleChars == lengthCurrent st) st.chBeforeIdentifier st.kwType
    (getDocNextChar c.doc (c.doc.length + 1) st.pos)
    (scMatch c.doc st.pos 91 93) st.lineStateLineType
  { st with state := r.1, kwType := r.2.1, lineStateLineType := r.2.2 }

/-- Identifier-family case of the Haxe state switch (part_001 lines
133-213). -/
def haxeSwitchIdentifierFamily (c : HaxeCtx) (st : St) : St × Bool :=
  let ch := chAt c.doc st.pos
  if isIdentifierCharEx ch then (st, false)
  else if st.state == SCE_HAXE_VARIABLE2 then
    (setState c.endPos st.escOuterState st, true)
  else if st.state == SCE_HAXE_MATADATA && ch == 46 then
    (setState c.endPos SCE_HAXE_MATADATA (forward (setState c.endPos SCE_HAXE_OPERATOR st)),
      true)
  else
    let st := if st.state == SCE_HAXE_IDENTIFIER then haxeClassifyIdentifier c st else st
    (setState c.endPos SCE_HAXE_DEFAULT st, false)

/-- String case of the Haxe state switch (part_001 lines 215-239):
no line-start recovery (plain Haxe strings continue across lines), and
the two interpolation forms are recognised only inside single-quoted
strings. -/
def haxeSwitchString (c : HaxeCtx) (st : St) : St × Bool :=
  let doc := c.doc
  let ch := chAt doc st.pos
  let chNext := chAt doc (st.pos + 1)
  if ch == 92 then
    let r := haxeResetEscapeState st.state chNext st
    if r.2 then
      let st2 := forward (setState c.endPos SCE_HAXE_ESCAPECHAR r.1)
      if scMatch doc st2.pos 117 123 then
        (forward { st2 with escBrace := true, escDigitsLeft := 7 }, false)
      else (st2, false)
    else (r.1, false)
  else if ch == 36 && st.state == SCE_HAXE_STRINGSQ then
    if chNext == 123 then
      let st1 := { st with nestedState := st.nestedState ++ [st.state] }
      (forward (setState c.endPos SCE_HAXE_OPERATOR2 st1), false)
    else if isIdentifierStartEx chNext then
      (setState c.endPos SCE_HAXE_VARIABLE2 { st with escOuterState := st.state }, false)
    else (st, false)
  else if ch == (if st.state == SCE_HAXE_STRINGDQ then 34 else 39) then
    (setState c.endPos SCE_HAXE_DEFAULT (forward st), false)
  else (st, false)

/-- Escape case of the Haxe state switch (part_001 lines 241-249). -/
def haxeSwitchEscape (c : HaxeCtx) (st : St) : St × Bool :=
  let ch := chAt c.doc st.pos
  let r := haxeAtEscapeEnd ch st
  if r.2 then
    let st2 := if r.1.escBrace && ch == 125 then forward r.1 else r.1
    (setState c.endPos r.1.escOuterState st2, true)
  else (r.1, false)

/-- Regex case of the Haxe state switch (part_001 lines 251-264). -/
def haxeSwitchRegex (c : HaxeCtx) (st : St) : St × Bool :=
  let doc := c.doc
  let ch := chAt doc st.pos
  if ch == 92 then (forward st, false)
  else if ch == 91 || ch == 93 then
    ({ st with insideRegexRange := ch == 91 }, false)
  else if ch == 47 && !st.insideRegexRange then
    let st := skipLowerCase doc (doc.length + 1) (forward st)
    (setState c.endPos SCE_HAXE_DEFAULT st, false)
  else (st, false)

/-- Block-comment case of the Haxe state switch (part_001 lines
274-284): the comment closes at the first `*/` (no nesting counter). -/
def haxeSwitchComment (c : HaxeCtx) (st : St) : St × Bool :=
  let doc := c.doc
  let ch := chAt doc st.pos
  let chNext := chAt doc (st.pos + 1)
  let chPrev := chPrevAt doc st.pos
  if scMatch doc st.pos 42 47 then
    (setState c.endPos SCE_HAXE_DEFAULT (forward (forward st)), false)
  else if st.state == SCE_HAXE_COMMENTBLOCKDOC && ch == 64 && isAlpha chNext
      && isCommentTagPrev chPrev then
    (setState c.endPos SCE_HAXE_COMMENTTAGAT st, false)
  else highlightTaskMarker c.endPos SCE_HAXE_TASKMARKER doc st

/-- The `switch (sc.state)` of `ColouriseHaxeDoc`. -/
def haxeSwitch (c : HaxeCtx) (st : St) : St × Bool :=
  let doc := c.doc
  let ch := chAt doc st.pos
  let chNext := chAt doc (st.pos + 1)
  let chPrev := chPrevAt doc st.pos
  if st.state == SCE_HAXE_OPERATOR || st.state == SCE_HAXE_OPERATOR2 then
    (setState c.endPos SCE_HAXE_DEFAULT st, false)
  else if st.state == SCE_HAXE_NUMBER then
    (if !isDecimalNumberEx chPrev ch chNext then setState c.endPos SCE_HAXE_DEFAULT st else st,
      false)
  else if st.state == SCE_HAXE_IDENTIFIER || st.state == SCE_HAXE_MATADATA
      || st.state == SCE_HAXE_VARIABLE || st.state == SCE_HAXE_VARIABLE2 then
    haxeSwitchIdentifierFamily c st
  else if st.state == SCE_HAXE_STRINGDQ || st.state == SCE_HAXE_STRINGSQ then
    haxeSwitchString c st
  else if st.state == SCE_HAXE_ESCAPECHAR then
    haxeSwitchEscape c st
  else if st.state == SCE_HAXE_REGEX then
    haxeSwitchRegex c st
  else if st.state == SCE_HAXE_COMMENTLINE then
    if atLineStartPos doc st.pos then (setState c.endPos SCE_HAXE_DEFAULT st, false)
    else ((highlightTaskMarker c.endPos SCE_HAXE_TASKMARKER doc st).1, false)
  else if st.state == SCE_HAXE_COMMENTBLOCK || st.state == SCE_HAXE_COMMENTBLOCKDOC then
    haxeSwitchComment c st
  else if st.state == SCE_HAXE_COMMENTTAGAT then
    if !isAlpha ch then (setState c.endPos SCE_HAXE_COMMENTBLOCKDOC st, true)
    else (st, false)
  else (st, false)

/-- Line-comment opener of `ColouriseHaxeDoc` (lines 295-300). -/
def haxeOpenCommentLine (c : HaxeCtx) (st : St) : St × Bool :=
  let st := { st with visibleCharsBefore := st.visibleChars }
  let st := setState c.endPos SCE_HAXE_COMMENTLINE st
  let st :=
    if st.visibleChars == 0 then
      { st with lineStateLineType := HaxeLineStateMaskLineComment }
    else st
  (st, false)

/-- Block-comment opener of `ColouriseHaxeDoc` (lines 301-308). -/
def haxeOpenCommentBlock (c : HaxeCtx) (st : St) : St × Bool :=
  let st := { st with visibleCharsBefore := st.visibleChars }
  let st := advance 2 (setState c.endPos SCE_HAXE_COMMENTBLOCK st)
  let st :=
    if chAt c.doc st.pos == 42 && chAt c.doc (st.pos + 1) != 42 then
      changeState SCE_HAXE_COMMENTBLOCKDOC st
    else st
  (st, true)

/-- Metadata opener of `ColouriseHaxeDoc` (lines 324-328). -/
def haxeOpenMetadata (c : HaxeCtx) (st : St) : St × Bool :=
  let chNext := chAt c.doc (st.pos + 1)
  let st := setState c.endPos SCE_HAXE_MATADATA st
  (if chNext == 58 then forward st else st, false)

/-- Operator opener of `ColouriseHaxeDoc` (lines 331-345): generic
graphic characters and the nested-state brace tracking of a
`${}`-interpolation. -/
def haxeOpenGraphic (c : HaxeCtx) (st : St) : St × Bool :=
  let ch := chAt c.doc st.pos
  let st := setState c.endPos SCE_HAXE_OPERATOR st
  if st.nestedState != [] then
    if ch == 123 then ({ st with nestedState := st.nestedState ++ [SCE_HAXE_DEFAULT] }, false)
    else if ch == 125 then
      let popped := takeAndPop st.nestedState
      let st := { st with nestedState := popped.2 }
      let st := if popped.1 != SCE_HAXE_DEFAULT then changeState SCE_HAXE_OPERATOR2 st else st
      (setState c.endPos popped.1 (forward st), true)
    else (st, false)
  else (st, false)

/-- The `if (sc.state == SCE_HAXE_DEFAULT)` opener block of
`ColouriseHaxeDoc` (lines 294-346). -/
def haxeOpener (c : HaxeCtx) (st : St) : St × Bool :=
  let doc := c.doc
  let ch := chAt doc st.pos
  let chNext := chAt doc (st.pos + 1)
  let chPrev := chPrevAt doc st.pos
  if scMatch doc st.pos 47 47 then
    haxeOpenCommentLine c st
  else if scMatch doc st.pos 47 42 then
    haxeOpenCommentBlock c st
  else if scMatch doc st.pos 126 47 then
    (forward (setState c.endPos SCE_HAXE_REGEX { st with insideRegexRange := false }), false)
  else if ch == 39 then (setState c.endPos SCE_HAXE_STRINGSQ st, false)
  else if ch == 34 then (setState c.endPos SCE_HAXE_STRINGDQ st, false)
  else if isNumberStartEx chPrev ch chNext then (setState c.endPos SCE_HAXE_NUMBER st, false)
  else if isIdentifierStartEx ch || (ch == 35 && (chNext == 101 || chNext == 105)) then
    let st :=
      if st.chPrevNonWhite != 46 then { st with chBeforeIdentifier := st.chPrevNonWhite } else st
    (setState c.endPos SCE_HAXE_IDENTIFIER st, false)
  else if ch == 64 && (chNext == 58 || isIdentifierStartEx chNext) then
    haxeOpenMetadata c st
  else if ch == 36 && isIdentifierStartEx chNext then
    (setState c.endPos SCE_HAXE_VARIABLE st, false)
  else if isAGraphic ch then
    haxeOpenGraphic c st
  else (st, false)

/-- End-of-iteration bookkeeping of `ColouriseHaxeDoc` (lines 348-365). -/
def haxeLineEndUpdate (c : HaxeCtx) (st : St) : St :=
  let lineState := st.lineStateLineType
  let lineState :=
    if st.nestedState != [] then lineState ||| (packLineState st.nestedState <<< 8)
    else lineState
  { st with
    lineStates := st.lineStates ++ [(lineOfPos c.doc st.pos, lineState)]
    lineStateLineType := 0
    visibleChars := 0
    visibleCharsBefore := 0
    kwType := HaxeKw_None }

def haxeBottom (c : HaxeCtx) (st : St) : St :=
  let ch := chAt c.doc st.pos
  let st :=
    if !isspacechar ch then
      let st := { st with visibleChars := st.visibleChars + 1 }
      if !isSpaceEquiv st.state then { st with chPrevNonWhite := ch } else st
    else st
  let st := if atLineEndPos c.doc c.endPos st.pos then haxeLineEndUpdate c st else st
  forward st

/-- One iteration of the `while (sc.More())` loop of `ColouriseHaxeDoc`. -/
def haxeIter (c : HaxeCtx) (st : St) : St :=
  let s1 := haxeSwitch c st
  if s1.2 then s1.1
  else
    let s2 := if s1.1.state == SCE_HAXE_DEFAULT then haxeOpener c s1.1 else (s1.1, false)
    if s2.2 then s2.1 else haxeBottom c s2.1

def haxeRun (c : HaxeCtx) : Nat → St → St
  | 0, st => st
  | fuel + 1, st => if st.pos < c.endPos then haxeRun c fuel (haxeIter c st) else st

/-- `ColouriseHaxeDoc`: line-state decode (lines 106-118), the scan loop,
and `sc.Complete()`. -/
def haxeScan (c : HaxeCtx) (initStyle : Nat) : St :=
  let line0 := lineOfPos c.doc c.startPos
  let st0 : St := { pos := c.startPos, state := initStyle, startSeg := c.startPos }
  let st0 :=
    if line0 > 0 then
      let rest := lookupLine c.prevLineStates (line0 - 1) >>> 8
      if rest != 0 then { st0 with nestedState := unpackLineState rest } else st0
    else st0
  complete c.endPos (haxeRun c (2 * c.endPos + 8) st0)

def haxeCtxFull (kwKeyword : List String) (doc : List Char) : HaxeCtx :=
  { doc := doc, startPos := 0, endPos := doc.length, kwKeyword := kwKeyword }

/-- Styles of a whole-document Haxe scan from a default start. -/
def haxeStyles (kwKeyword : List String) (doc : List Char) : List Nat :=
  (haxeScan (haxeCtxFull kwKeyword doc) SCE_HAXE_DEFAULT).styles

end N2

namespace N2

/-! ### The WinHex lexer (`ColouriseWinHexDoc`, part_000 lines 35-132) -/

structure WinHexCtx where
  doc : List Char
  startPos : Nat
  endPos : Nat
  kwKeyword : List String := []
  kwTypes : List String := []
  kwCommands : List String := []
  fold : Bool := false
  prevLevels : List (Nat × Nat) := []

/-- The `switch (sc.state)` of `ColouriseWinHexDoc`. -/
def winhexSwitch (c : WinHexCtx) (st : St) : St :=
  let doc := c.doc
  let ch := chAt doc st.pos
  if st.state == SCE_WINHEX_OPERATOR then setState c.endPos SCE_WINHEX_DEFAULT st
  else if st.state == SCE_WINHEX_NUMBER then
    if !isAlphaNumeric ch then setState c.endPos SCE_WINHEX_DEFAULT st else st
  else if st.state == SCE_WINHEX_IDENTIFIER then
    if !isIdentifierChar ch && ch != 45 then
      let s := currentLexemeLowered doc st
      let st :=
        if c.kwKeyword.contains s then changeState SCE_WINHEX_KEYWORD st
        else if c.kwTypes.contains s then changeState SCE_WINHEX_TYPE st
        else if c.kwCommands.contains s then changeState SCE_WINHEX_COMMAND st
        else st
      let st :=
        if st.state != SCE_WINHEX_IDENTIFIER && st.visibleChars == lengthCurrent st then
          if s.startsWith "if" || s == "begin" || s == "section" then
            { st with levelNext := st.levelNext + 1 }
          else if s.startsWith "end" then { st with levelNext := st.levelNext - 1 }
          else st
        else st
      setState c.endPos SCE_WINHEX_DEFAULT st
    else st
  else if st.state == SCE_WINHEX_STRING then
    if atLineStartPos doc st.pos then setState c.endPos SCE_WINHEX_DEFAULT st
    else if ch == 34 then setState c.endPos SCE_WINHEX_DEFAULT (forward st)
    else st
  else if st.state == SCE_WINHEX_COMMENTLINE then
    if atLineStartPos doc st.pos then setState c.endPos SCE_WINHEX_DEFAULT st else st
  else st

/-- The default-state opener block of `ColouriseWinHexDoc`. -/
def winhexOpener (c : WinHexCtx) (st : St) : St :=
  let doc := c.doc
  let ch := chAt doc st.pos
  if scMatch doc st.pos 47 47 then setState c.endPos SCE_WINHEX_COMMENTLINE st
  else if ch == 34 then setState c.endPos SCE_WINHEX_STRING st
  else if isADigit ch then setState c.endPos SCE_WINHEX_NUMBER st
  else if isIdentifierStart ch then setState c.endPos SCE_WINHEX_IDENTIFIER st
  else if isAGraphic ch && ch != 92 then
    let st := setState c.endPos SCE_WINHEX_OPERATOR st
    if ch == 123 then { st with levelNext := st.levelNext + 1 }
    else if ch == 125 then { st with levelNext := st.levelNext - 1 }
    else st
  else st

/-- End-of-iteration bookkeeping of `ColouriseWinHexDoc` (lines 113-128). -/
def winhexBottom (c : WinHexCtx) (st : St) : St :=
  let ch := chAt c.doc st.pos
  let st := if !isspacechar ch then { st with visibleChars := st.visibleChars + 1 } else st
  let st :=
    if atLineEndPos c.doc c.endPos st.pos then
      let st := { st with visibleChars := 0 }
      if c.fold then
        let levelUse := st.levelCurrent
        let lev := levelUse ||| (st.levelNext <<< 16)
        let lev := if levelUse < st.levelNext then lev ||| SC_FOLDLEVELHEADERFLAG else lev
        { st with
          levels := st.levels ++ [(lineOfPos c.doc st.pos, lev)]
          levelCurrent := st.levelNext }
      else st
    else st
  forward st

/-- One iteration of the `while (sc.More())` loop of `ColouriseWinHexDoc`
(this lexer has no `continue` paths). -/
def winhexIter (c : WinHexCtx) (st : St) : St :=
  let st := winhexSwitch c st
  let st := if st.state == SCE_WINHEX_DEFAULT then winhexOpener c st else st
  winhexBottom c st

def winhexRun (c : WinHexCtx) : Nat → St → St
  | 0, st => st
  | fuel + 1, st => if st.pos < c.endPos then winhexRun c fuel (winhexIter c st) else st

/-- `ColouriseWinHexDoc`: fold-level resume, the scan loop, and
`sc.Complete()`. -/
def winhexScan (c : WinHexCtx) (initStyle : Nat) : St :=
  let line0 := lineOfPos c.doc c.startPos
  let lvl0 :=
    if line0 > 0 then lookupLine c.prevLevels (line0 - 1) >>> 16 else SC_FOLDLEVELBASE
  let st0 : St :=
    { pos := c.startPos, state := initStyle, startSeg := c.startPos,
      levelCurrent := lvl0, levelNext := lvl0 }
  complete c.endPos (winhexRun c (c.endPos + 1) st0)

/-- Styles of a whole-document WinHex scan from a default start. -/
def winhexStyles (kwKeyword kwTypes kwCommands : List String) (doc : List Char) : List Nat :=
  (winhexScan
    { doc := doc, startPos := 0, endPos := doc.length,
      kwKeyword := kwKeyword, kwTypes := kwTypes, kwCommands := kwCommands, fold := true }
    SCE_WINHEX_DEFAULT).styles

/-! ### Concrete inputs used by the claim theorems -/

/-- The C8 document: a triple string whose `$(` interpolation spans the
line break, followed by `b` after the closing triple quote. -/
def dartChunkDoc : List Char := ("'''$(a\n)'''b").toList

def dartChunkFirst : St :=
  dartScan { doc := dartChunkDoc, startPos := 0, endPos := 7 } SCE_DART_DEFAULT

def dartChunkSecond : St :=
  dartScan
    { doc := dartChunkDoc, startPos := 7, endPos := 12,
      prevStyles := dartChunkFirst.styles, prevLineStates := dartChunkFirst.lineStates }
    (dartChunkFirst.styles.getLastD 0)

def escDoc : List Char := ("\"\\u\x7b41\x7d\"").toList

end N2


namespace N2

/-- Entries that the Dart scanner can push on the nested-state stack:
the default state and the four non-raw string states. -/
def nestedEntryOk (s : Nat) : Prop := s = 0 ∨ (11 ≤ s ∧ s ≤ 14)

/-- Invariant tying the committed style run to the segment bounds: the
styles list covers exactly `[startPos, min startSeg endPos)` and the
segment start never passes the cursor. -/
def StylesInv (startPos endPos : Nat) (st : St) : Prop :=
  st.styles.length + startPos = min st.startSeg endPos ∧ st.startSeg ≤ st.pos

end N2

/-! ## Helper lemmas -/
namespace N2

set_option maxHeartbeats 4000000 in
theorem inv_setState {startPos endPos : Nat} (s : Nat) {st : St}
    (h : StylesInv startPos endPos st) : StylesInv startPos endPos (setState endPos s st) := by
  obtain ⟨h1, h2⟩ := h
  refine ⟨?_, Nat.le_refl _⟩
  show (st.styles ++ List.replicate (min st.pos endPos - st.startSeg) st.state).length + startPos
      = min st.pos endPos
  rw [List.length_append, List.length_replicate]
  omega

set_option maxHeartbeats 4000000 in
theorem inv_changeState {startPos endPos : Nat} (s : Nat) {st : St}
    (h : StylesInv startPos endPos st) : StylesInv startPos endPos (changeState s st) := h

set_option maxHeartbeats 4000000 in
theorem inv_forward {startPos endPos : Nat} {st : St}
    (h : StylesInv startPos endPos st) : StylesInv startPos endPos (forward st) :=
  ⟨h.1, Nat.le_trans h.2 (Nat.le_succ _)⟩

set_option maxHeartbeats 4000000 in
theorem inv_advance {startPos endPos : Nat} (n : Nat) {st : St}
    (h : StylesInv startPos endPos st) : StylesInv startPos endPos (advance n st) :=
  ⟨h.1, Nat.le_trans h.2 (Nat.le_add_right _ _)⟩

theorem styles_length_complete {startPos endPos : Nat} {st : St}
    (h : StylesInv startPos endPos st) (hse : startPos ≤ endPos) :
    (complete endPos st).styles.length = endPos - startPos := by
  obtain ⟨h1, h2⟩ := h
  show (st.styles ++ List.replicate (endPos - st.startSeg) st.state).length = endPos - startPos
  rw [List.length_append, List.length_replicate]
  omega

set_option maxHeartbeats 4000000 in
theorem inv_taskMarker {startPos endPos : Nat} (ms : Nat) (doc : List Char) {st : St}
    (h : StylesInv startPos endPos st) :
    StylesInv startPos endPos (highlightTaskMarker endPos ms doc st).1 := by
  unfold highlightTaskMarker
  cases taskMarkerLenAt doc st.pos with
  | none => exact h
  | some k => exact inv_setState _ (inv_advance k (inv_setState _ h))

set_option maxHeartbeats 4000000 in
theorem inv_dartClassify {startPos : Nat} (c : DartCtx) {st : St}
    (h : StylesInv startPos c.endPos st) :
    StylesInv startPos c.endPos (dartClassifyIdentifier c st) := h

set_option maxHeartbeats 4000000 in
theorem inv_dartSwitchIdentifierFamily {startPos : Nat} (c : DartCtx) {st : St}
    (h : StylesInv startPos c.endPos st) :
    StylesInv startPos c.endPos (dartSwitchIdentifierFamily c st).1 := by
  dsimp only [dartSwitchIdentifierFamily]
  repeat' split
  all_goals
    solve_by_elim
      [inv_setState, inv_forward, inv_changeState, inv_dartClassify]

set_option maxHeartbeats 4000000 in
theorem inv_dartSwitchComment {startPos : Nat} (c : DartCtx) {st : St}
    (h : StylesInv startPos c.endPos st) :
    StylesInv startPos c.endPos (dartSwitchComment c st).1 := by
  dsimp only [dartSwitchComment]
  repeat' split
  all_goals
    first
      | solve_by_elim [inv_setState, inv_forward, inv_taskMarker]
      | exact inv_forward h
      | exact inv_setState _ (inv_forward (inv_forward h))

set_option maxHeartbeats 4000000 in
theorem inv_dartSwitchString {startPos : Nat} (c : DartCtx) {st : St}
    (h : StylesInv startPos c.endPos st) :
    StylesInv startPos c.endPos (dartSwitchString c st).1 := by
  dsimp only [dartSwitchString, dartResetEscapeState]
  repeat' split
  all_goals
    first
      | exact h
      | exact inv_setState SCE_DART_DEFAULT h
      | exact inv_setState SCE_DART_VARIABLE2 h
      | exact inv_forward (inv_setState SCE_DART_ESCAPECHAR h)
      | exact inv_forward (inv_forward (inv_setState SCE_DART_ESCAPECHAR h))
      | exact inv_forward (inv_setState SCE_DART_OPERATOR2 h)
      | exact inv_setState SCE_DART_DEFAULT (inv_forward h)
      | exact inv_setState SCE_DART_DEFAULT (inv_forward (inv_advance 2 h))
      | exact inv_setState SCE_DART_DEFAULT (inv_changeState SCE_DART_KEY (inv_forward h))
      | exact inv_setState SCE_DART_DEFAULT
          (inv_changeState SCE_DART_KEY (inv_forward (inv_advance 2 h)))
      | solve_by_elim [inv_setState, inv_forward, inv_advance, inv_changeState]

set_option maxHeartbeats 4000000 in
theorem inv_dartSwitchEscape {startPos : Nat} (c : DartCtx) {st : St}
    (h : StylesInv startPos c.endPos st) :
    StylesInv startPos c.endPos (dartSwitchEscape c st).1 := by
  dsimp only [dartSwitchEscape, dartAtEscapeEnd]
  repeat' split
  all_goals
    solve_by_elim [inv_setState, inv_forward]

set_option maxHeartbeats 4000000 in
theorem inv_dartSwitch {startPos : Nat} (c : DartCtx) {st : St}
    (h : StylesInv startPos c.endPos st) :
    StylesInv startPos c.endPos (dartSwitch c st).1 := by
  dsimp only [dartSwitch]
  repeat' split
  all_goals
    solve_by_elim
      [inv_setState, inv_taskMarker, inv_dartSwitchIdentifierFamily, inv_dartSwitchComment,
       inv_dartSwitchString, inv_dartSwitchEscape]

set_option maxHeartbeats 4000000 in
theorem inv_dartOpenComment {startPos : Nat} (c : DartCtx) {st : St}
    (h : StylesInv startPos c.endPos st) :
    StylesInv startPos c.endPos (dartOpenComment c st).1 := by
  dsimp only [dartOpenComment]
  repeat' split
  all_goals
    first
      | exact inv_advance 2 (inv_setState _ h)
      | exact inv_changeState _ (inv_advance 2 (inv_setState _ h))
      | exact inv_advance 2 (inv_setState SCE_DART_COMMENTLINE h)
      | exact inv_advance 2 (inv_setState SCE_DART_COMMENTBLOCK h)
      | exact inv_changeState SCE_DART_COMMENTLINEDOC
          (inv_advance 2 (inv_setState SCE_DART_COMMENTLINE h))
      | exact inv_changeState SCE_DART_COMMENTBLOCKDOC
          (inv_advance 2 (inv_setState SCE_DART_COMMENTBLOCK h))
      | exact inv_changeState SCE_DART_COMMENTLINEDOC
          (inv_advance 2 (inv_setState SCE_DART_COMMENTBLOCK h))
      | exact inv_changeState SCE_DART_COMMENTBLOCKDOC
          (inv_advance 2 (inv_setState SCE_DART_COMMENTLINE h))
      | solve_by_elim [inv_setState, inv_advance, inv_changeState]

set_option maxHeartbeats 4000000 in
theorem inv_dartOpenRawString {startPos : Nat} (c : DartCtx) {st : St}
    (h : StylesInv startPos c.endPos st) :
    StylesInv startPos c.endPos (dartOpenRawString c st).1 := by
  dsimp only [dartOpenRawString]
  repeat' split
  all_goals
    first
      | exact inv_advance 2 (inv_setState _ h)
      | exact inv_advance 2 (inv_changeState _ (inv_advance 2 (inv_setState _ h)))
      | solve_by_elim [inv_setState, inv_advance, inv_changeState]

set_option maxHeartbeats 4000000 in
theorem inv_dartOpenGraphic {startPos : Nat} (c : DartCtx) {st : St}
    (h : StylesInv startPos c.endPos st) :
    StylesInv startPos c.endPos (dartOpenGraphic c st).1 := by
  dsimp only [dartOpenGraphic]
  repeat' split
  all_goals
    first
      | exact inv_setState _ h
      | exact inv_setState _ (inv_forward (inv_changeState _ (inv_setState _ h)))
      | exact inv_setState _ (inv_forward (inv_setState _ h))
      | solve_by_elim [inv_setState, inv_forward, inv_changeState]

set_option maxHeartbeats 4000000 in
theorem inv_dartOpener {startPos : Nat} (c : DartCtx) {st : St}
    (h : StylesInv startPos c.endPos st) :
    StylesInv startPos c.endPos (dartOpener c st).1 := by
  dsimp only [dartOpener]
  simp only [apply_ite (Prod.fst : St × Bool → St)]
  repeat' split
  all_goals
    first
      | exact h
      | exact inv_dartOpenComment c h
      | exact inv_dartOpenRawString c h
      | exact inv_dartOpenGraphic c h
      | exact inv_setState _ h
      | exact inv_advance 2 (inv_setState _ h)
      | exact inv_advance 2 (inv_setState SCE_DART_TRIPLE_STRING_DQ h)
      | exact inv_advance 2 (inv_setState SCE_DART_TRIPLE_STRING_SQ h)
      | exact inv_setState SCE_DART_STRING_DQ h
      | exact inv_setState SCE_DART_STRING_SQ h
      | exact inv_setState SCE_DART_NUMBER h
      | exact inv_setState SCE_DART_METADATA h
      | exact inv_setState SCE_DART_VARIABLE h
      | exact inv_setState SCE_DART_SYMBOL_IDENTIFIER h
      | exact inv_setState SCE_DART_SYMBOL_OPERATOR h
      | exact inv_setState SCE_DART_IDENTIFIER h
      | solve_by_elim [inv_setState, inv_advance, inv_forward]

set_option maxHeartbeats 4000000 in
theorem inv_dartBottom {startPos : Nat} (c : DartCtx) {st : St}
    (h : StylesInv startPos c.endPos st) :
    StylesInv startPos c.endPos (dartBottom c st) := by
  dsimp only [dartBottom, dartLineEndUpdate]
  repeat' split
  all_goals exact inv_forward h

set_option maxHeartbeats 4000000 in
theorem inv_dartIter {startPos : Nat} (c : DartCtx) {st : St}
    (h : StylesInv startPos c.endPos st) :
    StylesInv startPos c.endPos (dartIter c st) := by
  dsimp only [dartIter]
  split
  · exact inv_dartSwitch c h
  · repeat' split
    all_goals
      first
        | exact inv_dartOpener c (inv_dartSwitch c h)
        | exact inv_dartSwitch c h
        | exact inv_dartBottom c (inv_dartOpener c (inv_dartSwitch c h))
        | exact inv_dartBottom c (inv_dartSwitch c h)

set_option maxHeartbeats 4000000 in
theorem inv_dartRun (c : DartCtx) (fuel : Nat) {startPos : Nat} {st : St}
    (h : StylesInv startPos c.endPos st) :
    StylesInv startPos c.endPos (dartRun c fuel st) := by
  induction fuel generalizing st with
  | zero => exact h
  | succ n ih =>
    show StylesInv startPos c.endPos
      (if st.pos < c.endPos then dartRun c n (dartIter c st) else st)
    split
    · exact ih (inv_dartIter c h)
    · exact h

theorem dartScan_styles_length (c : DartCtx) (initStyle : Nat)
    (hse : c.startPos ≤ c.endPos) :
    (dartScan c initStyle).styles.length = c.endPos - c.startPos := by
  unfold dartScan
  refine styles_length_complete (inv_dartRun c _ ?_) hse
  have hbase : StylesInv c.startPos c.endPos
      { pos := c.startPos, state := initStyle, startSeg := c.startPos } := by
    constructor
    · show (0 : Nat) + c.startPos = min c.startPos c.endPos
      omega
    · exact Nat.le_refl _
  repeat' split
  all_goals
    first
      | exact hbase
      | exact inv_forward (inv_setState SCE_DART_COMMENTLINE hbase)
      | exact
          (inv_forward (inv_setState SCE_DART_COMMENTLINE (hbase : StylesInv c.startPos c.endPos _)))

set_option maxHeartbeats 4000000 in
theorem inv_haxeClassify {startPos : Nat} (c : HaxeCtx) {st : St}
    (h : StylesInv startPos c.endPos st) :
    StylesInv startPos c.endPos (haxeClassifyIdentifier c st) := h

set_option maxHeartbeats 4000000 in
theorem inv_haxeSwitchIdentifierFamily {startPos : Nat} (c : HaxeCtx) {st : St}
    (h : StylesInv startPos c.endPos st) :
    StylesInv startPos c.endPos (haxeSwitchIdentifierFamily c st).1 := by
  dsimp only [haxeSwitchIdentifierFamily]
  repeat' split
  all_goals
    solve_by_elim
      [inv_setState, inv_forward, inv_changeState, inv_haxeClassify]

set_option maxHeartbeats 4000000 in
theorem inv_haxeSwitchString {startPos : Nat} (c : HaxeCtx) {st : St}
    (h : StylesInv startPos c.endPos st) :
    StylesInv startPos c.endPos (haxeSwitchString c st).1 := by
  dsimp only [haxeSwitchString, haxeResetEscapeState]
  repeat' split
  all_goals
    first
      | exact h
      | exact inv_setState SCE_HAXE_VARIABLE2 h
      | exact inv_forward (inv_setState SCE_HAXE_ESCAPECHAR h)
      | exact inv_forward (inv_forward (inv_setState SCE_HAXE_ESCAPECHAR h))
      | exact inv_forward (inv_setState SCE_HAXE_OPERATOR2 h)
      | exact inv_setState SCE_HAXE_DEFAULT (inv_forward h)
      | solve_by_elim [inv_setState, inv_forward, inv_advance, inv_changeState]

set_option maxHeartbeats 4000000 in
theorem inv_haxeSwitchEscape {startPos : Nat} (c : HaxeCtx) {st : St}
    (h : StylesInv startPos c.endPos st) :
    StylesInv startPos c.endPos (haxeSwitchEscape c st).1 := by
  dsimp only [haxeSwitchEscape, haxeAtEscapeEnd]
  repeat' split
  all_goals
    solve_by_elim [inv_setState, inv_forward]

set_option maxHeartbeats 4000000 in
theorem inv_skipLowerCase (doc : List Char) (fuel : Nat) {startPos endPos : Nat} {st : St}
    (h : StylesInv startPos endPos st) :
    StylesInv startPos endPos (skipLowerCase doc fuel st) := by
  induction fuel generalizing st with
  | zero => exact h
  | succ n ih =>
    show StylesInv startPos endPos
      (if isLowerCase (chAt doc st.pos) = true then skipLowerCase doc n (forward st) else st)
    split
    · exact ih (inv_forward h)
    · exact h

set_option maxHeartbeats 4000000 in
theorem inv_haxeSwitchRegex {startPos : Nat} (c : HaxeCtx) {st : St}
    (h : StylesInv startPos c.endPos st) :
    StylesInv startPos c.endPos (haxeSwitchRegex c st).1 := by
  dsimp only [haxeSwitchRegex]
  repeat' split
  all_goals
    first
      | exact h
      | exact inv_forward h
      | exact inv_setState _ (inv_skipLowerCase c.doc _ (inv_forward h))

set_option maxHeartbeats 4000000 in
theorem inv_haxeSwitchComment {startPos : Nat} (c : HaxeCtx) {st : St}
    (h : StylesInv startPos c.endPos st) :
    StylesInv startPos c.endPos (haxeSwitchComment c st).1 := by
  dsimp only [haxeSwitchComment]
  repeat' split
  all_goals
    first
      | exact inv_setState _ (inv_forward (inv_forward h))
      | exact inv_setState _ h
      | exact inv_taskMarker _ _ h
      | exact h

set_option maxHeartbeats 4000000 in
theorem inv_haxeSwitch {startPos : Nat} (c : HaxeCtx) {st : St}
    (h : StylesInv startPos c.endPos st) :
    StylesInv startPos c.endPos (haxeSwitch c st).1 := by
  dsimp only [haxeSwitch]
  repeat' split
  all_goals
    first
      | exact h
      | exact inv_setState _ h
      | exact inv_taskMarker _ _ h
      | exact inv_haxeSwitchIdentifierFamily c h
      | exact inv_haxeSwitchString c h
      | exact inv_haxeSwitchEscape c h
      | exact inv_haxeSwitchRegex c h
      | exact inv_haxeSwitchComment c h

theorem inv_haxeOpenCommentLine {startPos : Nat} (c : HaxeCtx) {st : St}
    (h : StylesInv startPos c.endPos st) :
    StylesInv startPos c.endPos (haxeOpenCommentLine c st).1 := by
  dsimp only [haxeOpenCommentLine]
  repeat' split
  all_goals exact inv_setState SCE_HAXE_COMMENTLINE h

theorem inv_haxeOpenCommentBlock {startPos : Nat} (c : HaxeCtx) {st : St}
    (h : StylesInv startPos c.endPos st) :
    StylesInv startPos c.endPos (haxeOpenCommentBlock c st).1 := by
  dsimp only [haxeOpenCommentBlock]
  repeat' split
  all_goals
    first
      | exact inv_advance 2 (inv_setState _ h)
      | exact inv_changeState _ (inv_advance 2 (inv_setState _ h))

theorem inv_haxeOpenMetadata {startPos : Nat} (c : HaxeCtx) {st : St}
    (h : StylesInv startPos c.endPos st) :
    StylesInv startPos c.endPos (haxeOpenMetadata c st).1 := by
  dsimp only [haxeOpenMetadata]
  repeat' split
  all_goals
    first
      | exact inv_setState _ h
      | exact inv_forward (inv_setState _ h)

theorem inv_haxeOpenGraphic {startPos : Nat} (c : HaxeCtx) {st : St}
    (h : StylesInv startPos c.endPos st) :
    StylesInv startPos c.endPos (haxeOpenGraphic c st).1 := by
  dsimp only [haxeOpenGraphic]
  repeat' split
  all_goals
    first
      | exact inv_setState SCE_HAXE_OPERATOR h
      | exact inv_setState _ (inv_forward (inv_changeState _ (inv_setState _ h)))
      | exact inv_setState _ (inv_forward (inv_setState _ h))
      | exact inv_setState _
          (inv_forward (inv_changeState SCE_HAXE_OPERATOR2 (inv_setState SCE_HAXE_OPERATOR h)))
      | exact inv_setState _ (inv_forward (inv_setState SCE_HAXE_OPERATOR h))

set_option maxHeartbeats 4000000 in
theorem inv_haxeOpener {startPos : Nat} (c : HaxeCtx) {st : St}
    (h : StylesInv startPos c.endPos st) :
    StylesInv startPos c.endPos (haxeOpener c st).1 := by
  dsimp only [haxeOpener]
  repeat' split
  all_goals
    first
      | exact h
      | exact inv_haxeOpenCommentLine c h
      | exact inv_haxeOpenCommentBlock c h
      | exact inv_haxeOpenMetadata c h
      | exact inv_haxeOpenGraphic c h
      | exact inv_setState _ h
      | exact inv_forward (inv_setState _ h)

set_option maxHeartbeats 4000000 in
theorem inv_haxeBottom {startPos : Nat} (c : HaxeCtx) {st : St}
    (h : StylesInv startPos c.endPos st) :
    StylesInv startPos c.endPos (haxeBottom c st) := by
  dsimp only [haxeBottom, haxeLineEndUpdate]
  repeat' split
  all_goals exact inv_forward h

set_option maxHeartbeats 4000000 in
theorem inv_haxeIter {startPos : Nat} (c : HaxeCtx) {st : St}
    (h : StylesInv startPos c.endPos st) :
    StylesInv startPos c.endPos (haxeIter c st) := by
  dsimp only [haxeIter]
  split
  · exact inv_haxeSwitch c h
  · repeat' split
    all_goals
      first
        | exact inv_haxeOpener c (inv_haxeSwitch c h)
        | exact inv_haxeSwitch c h
        | exact inv_haxeBottom c (inv_haxeOpener c (inv_haxeSwitch c h))
        | exact inv_haxeBottom c (inv_haxeSwitch c h)

set_option maxHeartbeats 4000000 in
theorem inv_haxeRun (c : HaxeCtx) (fuel : Nat) {startPos : Nat} {st : St}
    (h : StylesInv startPos c.endPos st) :
    StylesInv startPos c.endPos (haxeRun c fuel st) := by
  induction fuel generalizing st with
  | zero => exact h
  | succ n ih =>
    show StylesInv startPos c.endPos
      (if st.pos < c.endPos then haxeRun c n (haxeIter c st) else st)
    split
    · exact ih (inv_haxeIter c h)
    · exact h

theorem haxeScan_styles_length (c : HaxeCtx) (initStyle : Nat)
    (hse : c.startPos ≤ c.endPos) :
    (haxeScan c initStyle).styles.length = c.endPos - c.startPos := by
  unfold haxeScan
  refine styles_length_complete (inv_haxeRun c _ ?_) hse
  have hbase : StylesInv c.startPos c.endPos
      { pos := c.startPos, state := initStyle, startSeg := c.startPos } := by
    constructor
    · show (0 : Nat) + c.startPos = min c.startPos c.endPos
      omega
    · exact Nat.le_refl _
  dsimp only
  repeat' split
  all_goals exact hbase

set_option maxHeartbeats 4000000 in
theorem inv_winhexSwitch {startPos : Nat} (c : WinHexCtx) {st : St}
    (h : StylesInv startPos c.endPos st) :
    StylesInv startPos c.endPos (winhexSwitch c st) := by
  dsimp only [winhexSwitch]
  repeat' split
  all_goals
    first
      | exact h
      | exact inv_setState _ h
      | exact inv_setState _ (inv_forward h)
      | exact inv_setState SCE_WINHEX_DEFAULT h
      | exact inv_setState SCE_WINHEX_DEFAULT (inv_forward h)
      | exact inv_setState SCE_WINHEX_DEFAULT (inv_changeState SCE_WINHEX_KEYWORD h)
      | exact inv_setState SCE_WINHEX_DEFAULT (inv_changeState SCE_WINHEX_TYPE h)
      | exact inv_setState SCE_WINHEX_DEFAULT (inv_changeState SCE_WINHEX_COMMAND h)
      | solve_by_elim [inv_setState, inv_forward, inv_changeState]

set_option maxHeartbeats 4000000 in
theorem inv_winhexOpener {startPos : Nat} (c : WinHexCtx) {st : St}
    (h : StylesInv startPos c.endPos st) :
    StylesInv startPos c.endPos (winhexOpener c st) := by
  dsimp only [winhexOpener]
  repeat' split
  all_goals
    first
      | exact h
      | exact inv_setState _ h
      | exact inv_setState SCE_WINHEX_OPERATOR h

set_option maxHeartbeats 4000000 in
theorem inv_winhexBottom {startPos : Nat} (c : WinHexCtx) {st : St}
    (h : StylesInv startPos c.endPos st) :
    StylesInv startPos c.endPos (winhexBottom c st) := by
  dsimp only [winhexBottom]
  repeat' split
  all_goals exact inv_forward h

set_option maxHeartbeats 4000000 in
theorem inv_winhexIter {startPos : Nat} (c : WinHexCtx) {st : St}
    (h : StylesInv startPos c.endPos st) :
    StylesInv startPos c.endPos (winhexIter c st) := by
  dsimp only [winhexIter]
  split
  · exact inv_winhexBottom c (inv_winhexOpener c (inv_winhexSwitch c h))
  · exact inv_winhexBottom c (inv_winhexSwitch c h)

set_option maxHeartbeats 4000000 in
theorem inv_winhexRun (c : WinHexCtx) (fuel : Nat) {startPos : Nat} {st : St}
    (h : StylesInv startPos c.endPos st) :
    StylesInv startPos c.endPos (winhexRun c fuel st) := by
  induction fuel generalizing st with
  | zero => exact h
  | succ n ih =>
    show StylesInv startPos c.endPos
      (if st.pos < c.endPos then winhexRun c n (winhexIter c st) else st)
    split
    · exact ih (inv_winhexIter c h)
    · exact h

theorem winhexScan_styles_length (c : WinHexCtx) (initStyle : Nat)
    (hse : c.startPos ≤ c.endPos) :
    (winhexScan c initStyle).styles.length = c.endPos - c.startPos := by
  unfold winhexScan
  refine styles_length_complete (inv_winhexRun c _ ?_) hse
  constructor
  · show (0 : Nat) + c.startPos = min c.startPos c.endPos
    omega
  · exact Nat.le_refl _

end N2

namespace N2

theorem lor_two_mul_add (m n c : Nat) (hc : c < 2) :
    (2 * m) ||| (2 * n + c) = 2 * (m ||| n) + c := by
  have h0 : (2 * m) = Nat.bit false m := by simp [Nat.bit]
  have h1 : (2 * n + c) = Nat.bit (c == 1) n := by
    interval_cases c <;> simp [Nat.bit]
  rw [h0, h1, Nat.lor_bit]
  interval_cases c <;> simp [Nat.bit]

theorem shiftLeft_lor_eq_add : ∀ (k a b : Nat), b < 2 ^ k → a <<< k ||| b = 2 ^ k * a + b := by
  intro k
  induction k with
  | zero =>
    intro a b hb
    have hb0 : b = 0 := by omega
    subst hb0
    simp [Nat.shiftLeft_eq]
  | succ k ih =>
    intro a b hb
    have hsh : a <<< (k + 1) = 2 * (a <<< k) := by
      simp [Nat.shiftLeft_eq, Nat.pow_succ]
      ring
    have hsplit : b = 2 * (b / 2) + b % 2 := by omega
    have hb2 : b / 2 < 2 ^ k := by
      have hp : 2 ^ (k + 1) = 2 * 2 ^ k := by ring
      omega
    rw [hsh]
    conv_lhs => rw [hsplit]
    rw [lor_two_mul_add _ _ _ (Nat.mod_lt _ (by omega))]
    rw [ih a (b / 2) hb2]
    have hp : 2 ^ (k + 1) * a = 2 * (2 ^ k * a) := by ring
    rw [hp]
    omega

theorem packNestedEntry_lt (s : Nat) : packNestedEntry s < 8 := by
  unfold packNestedEntry
  split
  · omega
  · exact Nat.mod_lt _ (by omega)

theorem packEntries_eq (s : Nat) (rest : List Nat) :
    packEntries (s :: rest) = 8 * packEntries rest + packNestedEntry s := by
  show packNestedEntry s ||| (packEntries rest <<< 3) = _
  rw [Nat.lor_comm]
  exact shiftLeft_lor_eq_add 3 _ _ (packNestedEntry_lt s)

theorem unpack_pack_entries : ∀ ns : List Nat, (∀ s ∈ ns, nestedEntryOk s) →
    unpackEntries ns.length (packEntries ns) = ns := by
  intro ns
  induction ns with
  | nil => intro _; rfl
  | cons s rest ih =>
    intro hok
    have hs := hok s (List.mem_cons_self s rest)
    have hrest : ∀ t ∈ rest, nestedEntryOk t := fun t ht => hok t (List.mem_cons_of_mem s ht)
    have hlt := packNestedEntry_lt s
    rw [packEntries_eq]
    show unpackNestedEntry ((8 * packEntries rest + packNestedEntry s) % 8)
        :: unpackEntries rest.length ((8 * packEntries rest + packNestedEntry s) / 8) = _
    have hmod : (8 * packEntries rest + packNestedEntry s) % 8 = packNestedEntry s := by omega
    have hdiv : (8 * packEntries rest + packNestedEntry s) / 8 = packEntries rest := by omega
    rw [hmod, hdiv, ih hrest]
    congr 1
    rcases hs with h0 | hiv
    · subst h0; rfl
    · unfold packNestedEntry unpackNestedEntry
      have hne : ¬ (s ≤ 10) := by omega
      simp only [if_neg hne]
      have hm : (s - 10) % 8 = s - 10 := Nat.mod_eq_of_lt (by omega)
      rw [hm]
      have hz : ¬ ((s - 10) == 0) = true := by simp; omega
      simp only [if_neg hz]
      omega

theorem packLineState_eq (ns : List Nat) (hlen : ns.length ≤ 4) :
    packLineState ns = 8 * packEntries ns + ns.length := by
  unfold packLineState
  rw [List.take_of_length_le hlen, Nat.min_eq_left hlen, Nat.lor_comm]
  exact shiftLeft_lor_eq_add 3 _ _ (by omega)

theorem unpack_pack (ns : List Nat) (hlen : ns.length ≤ 4)
    (hok : ∀ s ∈ ns, nestedEntryOk s) :
    unpackLineState (packLineState ns) = ns := by
  rw [packLineState_eq ns hlen]
  unfold unpackLineState
  have hmod : (8 * packEntries ns + ns.length) % 8 = ns.length := by omega
  have hdiv : (8 * packEntries ns + ns.length) / 8 = packEntries ns := by omega
  rw [hmod, hdiv, Nat.min_eq_left hlen]
  exact unpack_pack_entries ns hok

theorem dart_codec_level (lvl lt : Nat) (ns : List Nat) (hlvl : lvl < 64) (hlt : lt < 4) :
    dartDecodeCommentLevel (dartEncodeLineState lvl lt ns) = lvl := by
  have hlo : (lvl <<< 2) ||| lt = 4 * lvl + lt := shiftLeft_lor_eq_add 2 lvl lt (by omega)
  have hlob : 4 * lvl + lt < 256 := by omega
  have h63 : (0x3f : Nat) = 2 ^ 6 - 1 := by norm_num
  simp only [dartEncodeLineState, dartDecodeCommentLevel, hlo]
  split
  · rw [Nat.lor_comm, shiftLeft_lor_eq_add 8 _ _ hlob,
      Nat.shiftRight_eq_div_pow, h63, Nat.and_pow_two_sub_one_eq_mod]
    norm_num
    omega
  · rw [Nat.shiftRight_eq_div_pow, h63, Nat.and_pow_two_sub_one_eq_mod]
    norm_num
    omega

theorem dart_codec_nested (lvl lt : Nat) (ns : List Nat) (hlvl : lvl < 64) (hlt : lt < 4)
    (hlen : ns.length ≤ 4) (hok : ∀ s ∈ ns, nestedEntryOk s) :
    dartDecodeNested (dartEncodeLineState lvl lt ns) = ns := by
  have hlo : (lvl <<< 2) ||| lt = 4 * lvl + lt := shiftLeft_lor_eq_add 2 lvl lt (by omega)
  have hlob : 4 * lvl + lt < 256 := by omega
  simp only [dartEncodeLineState, dartDecodeNested, hlo]
  split
  · next hne =>
    have hnemp : ns ≠ [] := by simpa using hne
    have hlen1 : 1 ≤ ns.length := by
      cases ns with
      | nil => exact absurd rfl hnemp
      | cons a l => simp
    rw [Nat.lor_comm, shiftLeft_lor_eq_add 8 _ _ hlob, Nat.shiftRight_eq_div_pow]
    have hpk := packLineState_eq ns hlen
    have hdiv : (2 ^ 8 * packLineState ns + (4 * lvl + lt)) / 2 ^ 8 = packLineState ns := by
      norm_num
      omega
    rw [hdiv]
    have hne0 : (packLineState ns != 0) = true := by
      simp only [bne_iff_ne, ne_eq]
      omega
    rw [if_pos hne0]
    exact unpack_pack ns hlen hok
  · next hne =>
    have hns : ns = [] := by simpa using hne
    rw [Nat.shiftRight_eq_div_pow]
    have hdiv : (4 * lvl + lt) / 2 ^ 8 = 0 := by norm_num; omega
    rw [hdiv]
    simpa using hns.symm

end N2

/-! ## The claims -/
namespace N2

/-- C1 (corrected to the Dart grammar): in `ColouriseDartDoc` the block-comment
state dispatches to the comment handler, every `/*` inside the comment
increments the nesting counter, every `*/` decrements it, and the comment
returns to the default state exactly when the counter reaches zero; the
sample `/* a /* b */ c */ d` is one comment span through the second `*/`
with `d` an identifier.  The Haxe grammar does not nest (see the
counterexample). -/
theorem dart_block_comment_nesting :
    (∀ (c : DartCtx) (st : St), st.state = SCE_DART_COMMENTBLOCK →
        dartSwitch c st = dartSwitchComment c st) ∧
    (∀ (c : DartCtx) (st : St), chAt c.doc st.pos = 47 → chAt c.doc (st.pos + 1) = 42 →
        (dartSwitchComment c st).1.commentLevel = st.commentLevel + 1 ∧
        (dartSwitchComment c st).1.state = st.state) ∧
    (∀ (c : DartCtx) (st : St),
        st.state = SCE_DART_COMMENTBLOCK ∨ st.state = SCE_DART_COMMENTBLOCKDOC →
        chAt c.doc st.pos = 42 → chAt c.doc (st.pos + 1) = 47 →
        1 ≤ st.commentLevel →
        (dartSwitchComment c st).1.commentLevel = st.commentLevel - 1 ∧
        ((dartSwitchComment c st).1.state = SCE_DART_DEFAULT ↔ st.commentLevel = 1)) ∧
    dartStyles [] [] [] [] (("/* a /* b */ c */ d").toList)
      = List.replicate 17 SCE_DART_COMMENTBLOCK ++ [SCE_DART_DEFAULT, SCE_DART_IDENTIFIER] := by
  refine ⟨?_, ?_, ?_, by rfl⟩
  · intro c st h
    simp only [dartSwitch, h]
    rfl
  · intro c st h1 h2
    have hne : (chAt c.doc st.pos == 42) = false := by simp [h1]
    simp only [dartSwitchComment, scMatch, h1, h2, hne, Bool.false_and, Bool.and_self,
      beq_self_eq_true, Bool.if_false_left, Bool.if_true_left]
    simp [forward]
  · intro c st hstate h1 h2 hlvl
    simp only [dartSwitchComment, scMatch, h1, h2, beq_self_eq_true, Bool.and_self, if_true]
    split
    · next hz =>
      have hz1 : st.commentLevel = 1 := by
        have hz2 : st.commentLevel - 1 = 0 := by simpa [forward] using hz
        omega
      simp [setState, hz1, forward]
    · next hz =>
      have hne1 : st.commentLevel ≠ 1 := by
        intro heq
        simp [forward, heq] at hz
      refine ⟨by simp [forward], ?_⟩
      constructor
      · intro hst
        have hst2 : st.state = SCE_DART_DEFAULT := by simpa [forward] using hst
        rcases hstate with h | h <;> rw [h] at hst2 <;> exact absurd hst2 (by decide)
      · intro heq
        exact absurd heq hne1

/-- C1, counterexample to the claim as stated over both grammars:
`ColouriseHaxeDoc` closes a block comment at the first `*/`, so in
`/* a /* b */ c */ d` the character at index 13 (`c`) is already styled
as an identifier, not as comment. -/
theorem haxe_block_comment_flat_cex :
    (haxeStyles [] (("/* a /* b */ c */ d").toList)).getD 13 0 = SCE_HAXE_IDENTIFIER ∧
    SCE_HAXE_IDENTIFIER ≠ SCE_HAXE_COMMENTBLOCK ∧
    SCE_HAXE_IDENTIFIER ≠ SCE_HAXE_COMMENTBLOCKDOC :=
  ⟨by rfl, by decide, by decide⟩

/-- C1, witness: concrete instances of the two hypothesised conjuncts. -/
theorem dart_block_comment_nesting_witness :
    (dartSwitchComment (dartCtxFull [] [] [] [] (("*/").toList))
        { state := SCE_DART_COMMENTBLOCK, commentLevel := 1 }).1.state = SCE_DART_DEFAULT ∧
    (dartSwitchComment (dartCtxFull [] [] [] [] (("/*").toList))
        { state := SCE_DART_COMMENTBLOCK, commentLevel := 1 }).1.commentLevel = 2 := by
  constructor
  · exact (dart_block_comment_nesting.2.2.1 (dartCtxFull [] [] [] [] (("*/").toList))
      { state := SCE_DART_COMMENTBLOCK, commentLevel := 1 }
      (Or.inl rfl) (by decide) (by decide) (by decide)).2.mpr rfl
  · exact (dart_block_comment_nesting.2.1 (dartCtxFull [] [] [] [] (("/*").toList))
      { state := SCE_DART_COMMENTBLOCK, commentLevel := 1 } (by decide) (by decide)).1

/-- C2 (corrected to the Dart grammar): in `ColouriseDartDoc` a non-triple
string state found at a line start reverts to the default state before
styling the character, so an unterminated single-line string never carries
onto the next line; `"abc` plus a newline styles the opening quote, `abc`
and the newline as string and a following `d` as identifier.  A Haxe
string does carry over (see the counterexample). -/
theorem dart_unterminated_string_recovery :
    (∀ (c : DartCtx) (st : St),
        (st.state = SCE_DART_STRING_SQ ∨ st.state = SCE_DART_STRING_DQ ∨
         st.state = SCE_DART_RAWSTRING_SQ ∨ st.state = SCE_DART_RAWSTRING_DQ) →
        atLineStartPos c.doc st.pos = true →
        dartSwitchString c st = (setState c.endPos SCE_DART_DEFAULT st, false)) ∧
    (∀ (c : DartCtx) (st : St), st.state = SCE_DART_STRING_DQ →
        dartSwitch c st = dartSwitchString c st) ∧
    dartStyles [] [] [] [] (("\"abc\nd").toList)
      = [SCE_DART_STRING_DQ, SCE_DART_STRING_DQ, SCE_DART_STRING_DQ, SCE_DART_STRING_DQ,
         SCE_DART_STRING_DQ, SCE_DART_IDENTIFIER] := by
  refine ⟨?_, ?_, by rfl⟩
  · intro c st hstate hline
    rcases hstate with h | h | h | h <;>
      simp [dartSwitchString, hline, h, isTripleString, SCE_DART_STRING_SQ,
        SCE_DART_STRING_DQ, SCE_DART_RAWSTRING_SQ, SCE_DART_RAWSTRING_DQ]
  · intro c st h
    simp only [dartSwitch, h]
    rfl

/-- C2, counterexample to the claim as stated over both grammars:
`ColouriseHaxeDoc` has no line-start recovery for strings, so after `"a`
and a newline the character `b` on the next line is still styled as a
double-quoted string. -/
theorem haxe_string_spans_lines_cex :
    (haxeStyles [] (("\"a\nb").toList)).getD 3 0 = SCE_HAXE_STRINGDQ ∧
    SCE_HAXE_STRINGDQ ≠ SCE_HAXE_DEFAULT :=
  ⟨by rfl, by decide⟩

/-- C2, witness: the line-start recovery at a concrete unterminated
string. -/
theorem dart_unterminated_string_recovery_witness :
    dartSwitchString
        { doc := ("\"a\nb").toList, startPos := 0, endPos := 4 }
        { pos := 3, state := SCE_DART_STRING_DQ, startSeg := 0 }
      = (setState 4 SCE_DART_DEFAULT { pos := 3, state := SCE_DART_STRING_DQ, startSeg := 0 },
         false) := by
  exact dart_unterminated_string_recovery.1 { doc := ("\"a\nb").toList, startPos := 0, endPos := 4 }
    { pos := 3, state := SCE_DART_STRING_DQ, startSeg := 0 }
    (Or.inr (Or.inl rfl)) (by decide)

/-- C3: the Dart line-state codec: the decoded comment level is always
below 64 (decode is total over all raw integers), and for every state the
encoder can be given (level < 64, line type < 4, at most 4 nested-state
entries each of which the scanner can push), decoding the encoding yields
the components back, so re-encoding the decoded record is the identity on
the encoded value. -/
theorem dart_line_state_codec_roundtrip :
    (∀ x : Nat, dartDecodeCommentLevel x < 64) ∧
    (∀ (lvl lt : Nat) (ns : List Nat), lvl < 64 → lt < 4 → ns.length ≤ 4 →
        (∀ s ∈ ns, nestedEntryOk s) →
        dartDecodeCommentLevel (dartEncodeLineState lvl lt ns) = lvl ∧
        dartDecodeNested (dartEncodeLineState lvl lt ns) = ns ∧
        dartEncodeLineState (dartDecodeCommentLevel (dartEncodeLineState lvl lt ns)) lt
            (dartDecodeNested (dartEncodeLineState lvl lt ns))
          = dartEncodeLineState lvl lt ns) := by
  constructor
  · intro x
    unfold dartDecodeCommentLevel
    have h63 : (0x3f : Nat) = 2 ^ 6 - 1 := by norm_num
    rw [h63, Nat.and_pow_two_sub_one_eq_mod]
    have := Nat.mod_lt (x >>> 2) (show 0 < 2 ^ 6 by norm_num)
    norm_num at this ⊢
    omega
  · intro lvl lt ns h1 h2 h3 h4
    have ha := dart_codec_level lvl lt ns h1 h2
    have hb := dart_codec_nested lvl lt ns h1 h2 h3 h4
    exact ⟨ha, hb, by rw [ha, hb]⟩

/-- C3, witness: the round trip at level 5, line type 1 and a two-entry
nested stack. -/
theorem dart_line_state_codec_roundtrip_witness :
    dartDecodeCommentLevel (dartEncodeLineState 5 1 [SCE_DART_STRING_DQ, SCE_DART_DEFAULT]) = 5 ∧
    dartDecodeNested (dartEncodeLineState 5 1 [SCE_DART_STRING_DQ, SCE_DART_DEFAULT])
      = [SCE_DART_STRING_DQ, SCE_DART_DEFAULT] := by
  have h := dart_line_state_codec_roundtrip.2 5 1 [SCE_DART_STRING_DQ, SCE_DART_DEFAULT] (by norm_num) (by norm_num)
    (by simp)
    (by
      intro s hs
      simp [SCE_DART_STRING_DQ, SCE_DART_DEFAULT] at hs
      rcases hs with h | h <;> subst h
      · exact Or.inr (by simp [SCE_DART_STRING_DQ])
      · exact Or.inl rfl)
  exact ⟨h.1, h.2.1⟩

/-- C4: totality: all three scanners (`ColouriseDartDoc`,
`ColouriseHaxeDoc`, `ColouriseWinHexDoc` as total Lean functions) assign
exactly one style to every character position of every input buffer: the
styles list has exactly the document's length. -/
theorem scanner_total_one_style_per_char :
    (∀ (kwK kwT kwC kwE : List String) (doc : List Char),
        (dartStyles kwK kwT kwC kwE doc).length = doc.length) ∧
    (∀ (kwK : List String) (doc : List Char), (haxeStyles kwK doc).length = doc.length) ∧
    (∀ (kwK kwT kwC : List String) (doc : List Char),
        (winhexStyles kwK kwT kwC doc).length = doc.length) := by
  refine ⟨?_, ?_, ?_⟩
  · intro kwK kwT kwC kwE doc
    have h := dartScan_styles_length (dartCtxFull kwK kwT kwC kwE doc) SCE_DART_DEFAULT
      (Nat.zero_le _)
    simpa [dartStyles, dartCtxFull] using h
  · intro kwK doc
    have h := haxeScan_styles_length (haxeCtxFull kwK doc) SCE_HAXE_DEFAULT (Nat.zero_le _)
    simpa [haxeStyles, haxeCtxFull] using h
  · intro kwK kwT kwC doc
    have h := winhexScan_styles_length
      { doc := doc, startPos := 0, endPos := doc.length,
        kwKeyword := kwK, kwTypes := kwT, kwCommands := kwC, fold := true }
      SCE_WINHEX_DEFAULT (Nat.zero_le _)
    simpa [winhexStyles] using h

/-- C5: the identifier reclassification chain of `ColouriseDartDoc` tests
the keyword sets in a fixed order: a lexeme in the reserved-keyword set is
styled `SCE_DART_WORD` and never as type, class, enum, key or label; a
non-keyword in the type list is `SCE_DART_WORD2`; then the class list,
then the enum list.  `dartClassifyCore` is a pure function, so the whole
reclassification is deterministic. -/
theorem identifier_keyword_priority :
    ∀ (c : DartCtx) (s : String) (ch : Nat) (importPos : Bool)
      (chBefore chBeforeIdentifier kwType0 chLineNext chDocNext lineType0 : Nat),
      (c.kwKeyword.contains s = true →
        (dartClassifyCore c s ch importPos chBefore chBeforeIdentifier kwType0 chLineNext
            chDocNext lineType0).1 = SCE_DART_WORD ∧
        (dartClassifyCore c s ch importPos chBefore chBeforeIdentifier kwType0 chLineNext
            chDocNext lineType0).1 ≠ SCE_DART_WORD2 ∧
        (dartClassifyCore c s ch importPos chBefore chBeforeIdentifier kwType0 chLineNext
            chDocNext lineType0).1 ≠ SCE_DART_CLASS ∧
        (dartClassifyCore c s ch importPos chBefore chBeforeIdentifier kwType0 chLineNext
            chDocNext lineType0).1 ≠ SCE_DART_ENUM ∧
        (dartClassifyCore c s ch importPos chBefore chBeforeIdentifier kwType0 chLineNext
            chDocNext lineType0).1 ≠ SCE_DART_KEY ∧
        (dartClassifyCore c s ch importPos chBefore chBeforeIdentifier kwType0 chLineNext
            chDocNext lineType0).1 ≠ SCE_DART_LABEL) ∧
      (c.kwKeyword.contains s = false → c.kwTypes.contains s = true →
        (dartClassifyCore c s ch importPos chBefore chBeforeIdentifier kwType0 chLineNext
            chDocNext lineType0).1 = SCE_DART_WORD2) ∧
      (c.kwKeyword.contains s = false → c.kwTypes.contains s = false →
        c.kwClasses.contains s = true →
        (dartClassifyCore c s ch importPos chBefore chBeforeIdentifier kwType0 chLineNext
            chDocNext lineType0).1 = SCE_DART_CLASS) ∧
      (c.kwKeyword.contains s = false → c.kwTypes.contains s = false →
        c.kwClasses.contains s = false → c.kwEnums.contains s = true →
        (dartClassifyCore c s ch importPos chBefore chBeforeIdentifier kwType0 chLineNext
            chDocNext lineType0).1 = SCE_DART_ENUM) := by
  intro c s ch importPos chBefore chBeforeIdentifier kwType0 chLineNext chDocNext lineType0
  refine ⟨?_, ?_, ?_, ?_⟩
  · intro h
    simp only [dartClassifyCore, h]
    simp [SCE_DART_WORD, SCE_DART_WORD2, SCE_DART_CLASS, SCE_DART_ENUM,
      SCE_DART_KEY, SCE_DART_LABEL]
  · intro h1 h2
    simp only [dartClassifyCore, h1, h2]
    simp
  · intro h1 h2 h3
    simp only [dartClassifyCore, h1, h2, h3]
    simp
  · intro h1 h2 h3 h4
    simp only [dartClassifyCore, h1, h2, h3, h4]
    simp

/-- C5, witness: "if" placed in both the keyword and the type list is
classified as a reserved word. -/
theorem identifier_keyword_priority_witness :
    (dartClassifyCore
        { doc := [], startPos := 0, endPos := 0, kwKeyword := ["if"], kwTypes := ["if"] }
        "if" 32 false 0 0 0 0 0 0).1 = SCE_DART_WORD := by
  exact (identifier_keyword_priority { doc := [], startPos := 0, endPos := 0, kwKeyword := ["if"], kwTypes := ["if"] }
    "if" 32 false 0 0 0 0 0 0).1 (by decide) |>.1

/-- C6: inside interpolation (non-empty nested-state stack) an opening
brace in default state pushes a default marker onto the stack, and a
closing brace pops one marker: the popped marker becomes the state resumed
after the brace (a non-default marker restores the saved string style, the
brace itself styled `SCE_DART_OPERATOR2`; a default marker stays in
default, the brace styled `SCE_DART_OPERATOR`); the dollar-brace sample
with an inner map literal keeps the outer string open across the
interpolation. -/
theorem interpolation_brace_stack :
    (∀ (c : DartCtx) (st : St), st.nestedState ≠ [] → chAt c.doc st.pos = 123 →
        (dartOpenGraphic c st).1.nestedState = st.nestedState ++ [SCE_DART_DEFAULT] ∧
        (dartOpenGraphic c st).1.state = SCE_DART_OPERATOR ∧
        (dartOpenGraphic c st).2 = false) ∧
    (∀ (c : DartCtx) (st : St), st.nestedState ≠ [] → chAt c.doc st.pos = 125 →
        (dartOpenGraphic c st).1.nestedState = st.nestedState.dropLast ∧
        (dartOpenGraphic c st).2 = true ∧
        (dartOpenGraphic c st).1.state = st.nestedState.getLastD 0 ∧
        (dartOpenGraphic c st).1.styles =
          (st.styles ++ List.replicate (min st.pos c.endPos - st.startSeg) st.state)
            ++ List.replicate (min (st.pos + 1) c.endPos - st.pos)
                (if st.nestedState.getLastD 0 == SCE_DART_DEFAULT then SCE_DART_OPERATOR
                 else SCE_DART_OPERATOR2)) ∧
    dartStyles [] [] [] [] (("\"x$\x7b \x7b1:2\x7d \x7dy\"").toList)
      = [SCE_DART_STRING_DQ, SCE_DART_STRING_DQ, SCE_DART_OPERATOR2, SCE_DART_OPERATOR2,
         SCE_DART_DEFAULT, SCE_DART_OPERATOR, SCE_DART_NUMBER, SCE_DART_OPERATOR,
         SCE_DART_NUMBER, SCE_DART_OPERATOR, SCE_DART_DEFAULT, SCE_DART_OPERATOR2,
         SCE_DART_STRING_DQ, SCE_DART_STRING_DQ] := by
  refine ⟨?_, ?_, by rfl⟩
  · intro c st hne hch
    have hbne : (st.nestedState != []) = true := by simpa using hne
    simp [dartOpenGraphic, hch, hbne, setState]
  · intro c st hne hch
    simp only [dartOpenGraphic, hch, takeAndPop]
    by_cases hout : st.nestedState.getLast?.getD 0 = SCE_DART_DEFAULT
    · simp [hne, hout, setState, changeState, forward]
    · simp [hne, hout, setState, changeState, forward]

/-- C6, witness: the push at a concrete opening brace and the pop at a
concrete closing brace with a one-entry stack. -/
theorem interpolation_brace_stack_witness :
    ([SCE_DART_STRING_DQ] : List Nat) ≠ [] ∧
    chAt (("\x7b").toList) 0 = 123 ∧
    (dartOpenGraphic { doc := ("\x7b").toList, startPos := 0, endPos := 1 }
        { pos := 0, nestedState := [SCE_DART_STRING_DQ] }).1.nestedState
      = [SCE_DART_STRING_DQ] ++ [SCE_DART_DEFAULT] ∧
    (dartOpenGraphic { doc := ("\x7d").toList, startPos := 0, endPos := 1 }
        { pos := 0, nestedState := [SCE_DART_STRING_DQ] }).1.state
      = ([SCE_DART_STRING_DQ] : List Nat).getLastD 0 :=
  ⟨by decide, by decide,
   (interpolation_brace_stack.1 { doc := ("\x7b").toList, startPos := 0, endPos := 1 }
     { pos := 0, nestedState := [SCE_DART_STRING_DQ] } (by decide) (by decide)).1,
   (interpolation_brace_stack.2.1 { doc := ("\x7d").toList, startPos := 0, endPos := 1 }
     { pos := 0, nestedState := [SCE_DART_STRING_DQ] } (by decide) (by decide)).2.2.1⟩

/-- C7 (corrected): the escape sub-scanner's reset returns false exactly on
an end-of-line character and otherwise saves the outer style; the digit
budget is 3 after `x` and 5 after `u` in both grammars, but an octal digit
commits to 3 octal digits only in the Haxe grammar - the Dart grammar
gives every character other than `x`/`u` budget 1 (see the
counterexample); the advance decrements the counter and ends exactly when
it reaches zero or the character is not a digit of the active base; the
brace form after `u` overrides the budget to 7 and the closing brace is
consumed on completion. -/
theorem escape_sequence_contract :
    (∀ state chNext st, (dartResetEscapeState state chNext st).2 = !isEOLChar chNext) ∧
    (∀ state chNext st, (haxeResetEscapeState state chNext st).2 = !isEOLChar chNext) ∧
    (∀ state chNext st, isEOLChar chNext = false →
        (dartResetEscapeState state chNext st).1.escOuterState = state ∧
        (dartResetEscapeState state chNext st).1.escDigitsLeft =
          (if chNext == 120 then 3 else if chNext == 117 then 5 else 1)) ∧
    (∀ state chNext st, isEOLChar chNext = false →
        (haxeResetEscapeState state chNext st).1.escOuterState = state ∧
        (haxeResetEscapeState state chNext st).1.escDigitsLeft =
          (if chNext == 117 then 5 else if chNext == 120 then 3
           else if isOctalDigit chNext then 3 else 1)) ∧
    (∀ ch st, (dartAtEscapeEnd ch st).1.escDigitsLeft = st.escDigitsLeft - 1 ∧
        (dartAtEscapeEnd ch st).2 = (st.escDigitsLeft - 1 == 0 || !isHexDigit ch)) ∧
    (∀ ch st, (haxeAtEscapeEnd ch st).1.escDigitsLeft = st.escDigitsLeft - 1 ∧
        (haxeAtEscapeEnd ch st).2 = (st.escDigitsLeft - 1 == 0 || !isOctalOrHex ch st.escHex)) ∧
    (∀ (c : DartCtx) (st : St), st.state = SCE_DART_STRING_DQ →
        atLineStartPos c.doc st.pos = false →
        chAt c.doc st.pos = 92 → chAt c.doc (st.pos + 1) = 117 →
        chAt c.doc (st.pos + 2) = 123 →
        (dartSwitchString c st).1.escDigitsLeft = 7 ∧
        (dartSwitchString c st).1.escBrace = true ∧
        (dartSwitchString c st).1.state = SCE_DART_ESCAPECHAR ∧
        (dartSwitchString c st).1.pos = st.pos + 2) ∧
    (∀ (c : DartCtx) (st : St), st.escBrace = true → chAt c.doc st.pos = 125 →
        (dartSwitchEscape c st).1.pos = st.pos + 1 ∧
        (dartSwitchEscape c st).1.state = st.escOuterState ∧
        (dartSwitchEscape c st).2 = true) := by
  refine ⟨?_, ?_, ?_, ?_, ?_, ?_, ?_, ?_⟩
  · intro state chNext st
    unfold dartResetEscapeState; split <;> simp_all
  · intro state chNext st
    unfold haxeResetEscapeState; split <;> simp_all
  · intro state chNext st h
    simp [dartResetEscapeState, h]
  · intro state chNext st h
    simp only [haxeResetEscapeState, h, Bool.false_eq_true, if_false]
    refine ⟨?_, ?_⟩ <;> (repeat' split) <;> simp_all
  · exact fun ch st => ⟨rfl, rfl⟩
  · exact fun ch st => ⟨rfl, rfl⟩
  · intro c st hstate hline hch hu hb
    simp [dartSwitchString, dartResetEscapeState, hstate, hline, hch, hu, hb,
      setState, forward, scMatch, isEOLChar, SCE_DART_STRING_DQ, SCE_DART_RAWSTRING_SQ,
      SCE_DART_ESCAPECHAR, isTripleString]
  · intro c st hbr hch
    simp [dartSwitchEscape, dartAtEscapeEnd, hbr, hch, isHexDigit, isADigit, forward, setState]

/-- C7, counterexample to the octal clause in the Dart grammar: `0` is an
octal digit, yet `EscapeSequence::resetEscapeState` of LexDart.cxx gives
it a budget of 1, not 3. -/
theorem dart_escape_octal_budget_cex :
    isOctalDigit 48 = true ∧ isEOLChar 48 = false ∧
    (dartResetEscapeState SCE_DART_STRING_DQ 48 ({} : St)).1.escDigitsLeft = 1 := by
  decide

/-- C7, witness: concrete instances of the hypothesised conjuncts: the
Haxe octal budget, the brace-form budget override and the brace-consuming
completion. -/
theorem escape_sequence_contract_witness :
    isEOLChar 48 = false ∧
    (haxeResetEscapeState SCE_HAXE_STRINGDQ 48 ({} : St)).1.escDigitsLeft =
      (if (48 : Nat) == 117 then 5 else if (48 : Nat) == 120 then 3
       else if isOctalDigit 48 then 3 else 1) ∧
    (dartSwitchString { doc := escDoc, startPos := 0, endPos := 8 }
        { pos := 1, state := SCE_DART_STRING_DQ }).1.escDigitsLeft = 7 ∧
    (dartSwitchEscape { doc := escDoc, startPos := 0, endPos := 8 }
        { pos := 6, state := SCE_DART_ESCAPECHAR, escBrace := true,
          escOuterState := SCE_DART_STRING_DQ, escDigitsLeft := 2 }).2 = true :=
  ⟨by decide,
   ((escape_sequence_contract.2.2.2.1) SCE_HAXE_STRINGDQ 48 {} (by decide)).2,
   ((escape_sequence_contract.2.2.2.2.2.2.1) _ _ rfl (by decide) (by decide) (by decide) (by decide)).1,
   ((escape_sequence_contract.2.2.2.2.2.2.2) _ _ rfl (by decide)).2.2⟩

/-- C8, the divergence witnessing the code bug: scanning the document of
`dartChunkDoc` (a triple string with a `$(` interpolation spanning a line
break) in one call differs from scanning it in two line-aligned chunks
that hand over exactly the produced initial style and line states.  The
`$(` simple-interpolation flag is not stored in the line state, so the
second chunk resumes the triple string instead of the interpolation: at
index 7 the full scan styles `)` as `SCE_DART_OPERATOR2` (interpolation
close) but the chunked scan styles it `SCE_DART_OPERATOR`, and at index
11 the full scan styles `b` as an identifier while the chunked scan is
still inside the string. -/
theorem dart_chunked_rescan_divergence :
    dartChunkFirst.styles ++ dartChunkSecond.styles
        ≠ dartStyles [] [] [] [] dartChunkDoc ∧
    (dartStyles [] [] [] [] dartChunkDoc).getD 7 0 = SCE_DART_OPERATOR2 ∧
    (dartChunkFirst.styles ++ dartChunkSecond.styles).getD 7 0 = SCE_DART_OPERATOR ∧
    (dartStyles [] [] [] [] dartChunkDoc).getD 11 0 = SCE_DART_IDENTIFIER ∧
    (dartChunkFirst.styles ++ dartChunkSecond.styles).getD 11 0 = SCE_DART_TRIPLE_STRING_SQ := by
  refine ⟨by decide, by rfl, by rfl, by rfl, by rfl⟩

/-- C9: in `ColouriseHaxeDoc` a `$` inside a double-quoted string is left
as plain string content (the interpolation branch is syntactically inside
the single-quote case), while `ColouriseDartDoc` recognises `$identifier`
in double-quoted strings; concretely `'$a'` interpolates in Haxe,
`"$a"` does not, and `"$a"` interpolates in Dart. -/
theorem haxe_interpolation_quote_forms :
    (∀ (c : HaxeCtx) (st : St), st.state = SCE_HAXE_STRINGDQ → chAt c.doc st.pos = 36 →
        haxeSwitchString c st = (st, false)) ∧
    (∀ (c : HaxeCtx) (st : St), st.state = SCE_HAXE_STRINGDQ →
        haxeSwitch c st = haxeSwitchString c st) ∧
    (∀ (c : DartCtx) (st : St), st.state = SCE_DART_STRING_DQ →
        atLineStartPos c.doc st.pos = false → chAt c.doc st.pos = 36 →
        isIdentifierStartEx (chAt c.doc (st.pos + 1)) = true →
        (dartSwitchString c st).1.state = SCE_DART_VARIABLE2) ∧
    haxeStyles [] (("'$a'").toList)
      = [SCE_HAXE_STRINGSQ, SCE_HAXE_VARIABLE2, SCE_HAXE_VARIABLE2, SCE_HAXE_STRINGSQ] ∧
    haxeStyles [] (("\"$a\"").toList) = List.replicate 4 SCE_HAXE_STRINGDQ ∧
    dartStyles [] [] [] [] (("\"$a\"").toList)
      = [SCE_DART_STRING_DQ, SCE_DART_VARIABLE2, SCE_DART_VARIABLE2, SCE_DART_STRING_DQ] := by
  refine ⟨?_, ?_, ?_, by rfl, by rfl, by rfl⟩
  · intro c st hstate hch
    simp [haxeSwitchString, hstate, hch, SCE_HAXE_STRINGDQ, SCE_HAXE_STRINGSQ]
  · intro c st h
    simp only [haxeSwitch, h]
    rfl
  · intro c st hstate hnls hch hident
    have h123 : chAt c.doc (st.pos + 1) ≠ 123 := by
      intro hx
      rw [hx] at hident
      exact absurd hident (by decide)
    have h40 : chAt c.doc (st.pos + 1) ≠ 40 := by
      intro hx
      rw [hx] at hident
      exact absurd hident (by decide)
    simp [dartSwitchString, hstate, hnls, hch, hident, h123, h40, SCE_DART_STRING_DQ,
      SCE_DART_RAWSTRING_SQ, isTripleString, SCE_DART_STRING_SQ,
      getStringQuote, setState]

/-- C9, witness: the Haxe double-quote handler ignores a concrete `$`. -/
theorem haxe_interpolation_quote_forms_witness :
    haxeSwitchString { doc := ("\"$\"").toList, startPos := 0, endPos := 3 }
        { pos := 1, state := SCE_HAXE_STRINGDQ, startSeg := 0 }
      = ({ pos := 1, state := SCE_HAXE_STRINGDQ, startSeg := 0 }, false) := by
  exact haxe_interpolation_quote_forms.1 { doc := ("\"$\"").toList, startPos := 0, endPos := 3 }
    { pos := 1, state := SCE_HAXE_STRINGDQ, startSeg := 0 } rfl (by decide)

/-- C10: both line-end bookkeeping blocks reset `kwType` to none
unconditionally, so a class/enum/interface/label-introducing keyword on
one line never reclassifies an identifier on a later line; concretely the
same-line scan of `return x()` styles `x` as `SCE_DART_FUNCTION` (the
pending `DartKw_Return` suppresses the function-definition style), while
with `return` on the previous line the reset yields
`SCE_DART_FUNCTION_DEFINITION`. -/
theorem kwtype_line_end_reset :
    (∀ (c : DartCtx) (st : St), (dartLineEndUpdate c st).kwType = DartKw_None) ∧
    (∀ (c : HaxeCtx) (st : St), (haxeLineEndUpdate c st).kwType = HaxeKw_None) ∧
    (∀ (c : DartCtx) (st : St), atLineEndPos c.doc c.endPos st.pos = true →
        (dartBottom c st).kwType = DartKw_None) ∧
    (∀ (c : HaxeCtx) (st : St), atLineEndPos c.doc c.endPos st.pos = true →
        (haxeBottom c st).kwType = HaxeKw_None) ∧
    (dartStyles ["return"] [] [] [] (("return\nx()").toList)).getD 7 0
      = SCE_DART_FUNCTION_DEFINITION ∧
    (dartStyles ["return"] [] [] [] (("return x()").toList)).getD 7 0
      = SCE_DART_FUNCTION := by
  refine ⟨fun c st => rfl, fun c st => rfl, ?_, ?_, by rfl, by rfl⟩
  · intro c st h
    simp only [dartBottom]
    repeat' split
    all_goals simp_all [dartLineEndUpdate, forward, DartKw_None]
  · intro c st h
    simp only [haxeBottom]
    repeat' split
    all_goals simp_all [haxeLineEndUpdate, forward, HaxeKw_None]

/-- C10, witness: the line-end reset at a concrete line end for both
grammars. -/
theorem kwtype_line_end_reset_witness :
    atLineEndPos (("a\n").toList) 3 1 = true ∧
    (dartBottom { doc := ("a\n").toList, startPos := 0, endPos := 3 }
        { pos := 1, kwType := 65 }).kwType = DartKw_None ∧
    (haxeBottom { doc := ("a\n").toList, startPos := 0, endPos := 3 }
        { pos := 1, kwType := 5 }).kwType = HaxeKw_None :=
  ⟨by decide,
   kwtype_line_end_reset.2.2.1 { doc := ("a\n").toList, startPos := 0, endPos := 3 }
     { pos := 1, kwType := 65 } (by decide),
   kwtype_line_end_reset.2.2.2.1 { doc := ("a\n").toList, startPos := 0, endPos := 3 }
     { pos := 1, kwType := 5 } (by decide)⟩

end N2
